import Mathlib

/-!
Shallow embedding of the CineCraft-AI command pipeline:

* `src/app.py` (`get_all_commands`): the Safety Filter over command strings.
* `src/src/bbs_commands.py` (`BBSCommandGenerator`): storyboard → timed
  command script compilation.
* `src/src/rcon_client.py` (`MinecraftRCON.execute_sequence`): the
  execution scheduler.

Conventions of the embedding:

* Python values flowing through loosely-typed storyboard fields are
  modelled by `PyVal`; Python `float` is modelled exactly as `ℚ`
  (binary rounding of IEEE floats is not modelled; no claim below
  depends on it).
* Python exceptions (`ZeroDivisionError`, `IndexError`, `TypeError`,
  `ValueError`, `AttributeError`) are modelled with `Except String`.
* The mutable `self.actor_registry` of `BBSCommandGenerator` is threaded
  explicitly: each method takes the instance's current registry and
  returns the updated one.  `BBSCommandGenerator.__init__` initializes
  the registry to the empty dict.
-/

namespace CineCraft

/-- Python `sub in s` substring test. -/
def strContains (s sub : String) : Bool :=
  decide (List.IsInfix sub.data s.data)

/-- Python `pre in s at position 0`, i.e. `s.startswith(pre)`. -/
def strStartsWith (s pre : String) : Bool :=
  decide (List.IsPrefix pre.data s.data)

/-- Python `str.strip()` on a character list: drop whitespace from both
ends. -/
def stripList (l : List Char) : List Char :=
  ((l.dropWhile Char.isWhitespace).reverse.dropWhile Char.isWhitespace).reverse

/-- Python `str.strip()`. -/
def pyStrip (s : String) : String :=
  String.mk (stripList s.data)

/-- Python `str.lower()` (ASCII case, which is all this repository uses). -/
def pyLower (s : String) : String :=
  String.mk (s.data.map Char.toLower)

/-- Python `s.replace(c, "")` for a single-character pattern: remove
every occurrence of the character. -/
def removeChar (c : Char) (s : String) : String :=
  String.mk (s.data.filter (fun a => !(a == c)))

/-- Python `s.replace(" ", "_")`: single-character replacement. -/
def spacesToUnderscores (s : String) : String :=
  String.mk (s.data.map (fun a => if a == ' ' then '_' else a))

/-- The `s.lower().replace(" ", "_")` normalization applied to actor
names and types (lines 207-208 and 311-312). -/
def normName (s : String) : String :=
  spacesToUnderscores (pyLower s)

/-- Insert `x` after every element `y` with `le y x`: the insertion step
of a stable insertion sort. -/
def stableInsert {α : Type _} (le : α → α → Bool) (x : α) : List α → List α
  | [] => [x]
  | y :: ys => if le y x then y :: stableInsert le x ys else x :: y :: ys

/-- Python's stable `sorted`: modelled as a stable insertion sort.  All
stable sorts with the same (total, transitive) comparison produce the
same list, so this is exactly CPython's result for the tick orderings
used here. -/
def pySorted {α : Type _} (le : α → α → Bool) (l : List α) : List α :=
  l.foldl (fun acc x => stableInsert le x acc) []

/-- Python dynamic values as they occur in parsed storyboard JSON.
Dictionaries appear in the storyboard only at positions that the typed
structures below model directly, so they are not a `PyVal` constructor. -/
inductive PyVal where
  | none
  | int (n : Int)
  | float (q : ℚ)
  | str (s : String)
  | list (xs : List PyVal)

/-- Decimal digits → value, failing on any non-digit. -/
def decDigits (cs : List Char) : Option Nat :=
  cs.foldlM (fun acc c => if c.isDigit then some (acc * 10 + (c.toNat - 48)) else Option.none) 0

/-- Split a character list at every `'.'` (Python `s.split(".")`). -/
def splitDot : List Char → List (List Char)
  | [] => [[]]
  | c :: rest =>
      if c == '.' then [] :: splitDot rest
      else
        match splitDot rest with
        | h :: t => (c :: h) :: t
        | [] => [[c]]

/-- Python `float(s)` on the decimal string forms this repository
produces ("3", "-2.5", ".5", "5.", "~"-stripped coordinates): strip
surrounding whitespace, optional sign, integer and/or fractional digit
groups.  Exponent, `inf` and `nan` literals are not modelled; no
storyboard field in any claim uses them. -/
def pyFloatOfList (cs : List Char) : Option ℚ :=
  let t := stripList cs
  let sgn : ℚ := if t.head? == some '-' then -1 else 1
  let body :=
    match t with
    | '-' :: r => r
    | '+' :: r => r
    | _ => t
  match splitDot body with
  | [w] =>
      if w.isEmpty then Option.none
      else (decDigits w).map (fun n => sgn * n)
  | [w, f] =>
      if w.isEmpty && f.isEmpty then Option.none
      else
        match decDigits w, decDigits f with
        | some wn, some fn => some (sgn * ((wn : ℚ) + (fn : ℚ) / ((10 : ℚ) ^ f.length)))
        | _, _ => Option.none
  | _ => Option.none

/-- Python `float(s)` on a string. -/
def pyFloatOfString (s : String) : Option ℚ :=
  pyFloatOfList s.data

/-- Python `float(x)`: numeric conversion, raising `ValueError` on a bad
string and `TypeError` on a non-numeric non-string value. -/
def pyFloat (v : PyVal) : Except String ℚ :=
  match v with
  | .int n => .ok (n : ℚ)
  | .float q => .ok q
  | .str s =>
      match pyFloatOfString s with
      | some q => .ok q
      | Option.none => .error "ValueError: could not convert string to float"
  | .none => .error "TypeError: float() argument must be a string or a real number"
  | .list _ => .error "TypeError: float() argument must be a string or a real number"

/-- Python `v[i]` for a non-negative index: `IndexError` past the end,
`TypeError` when `v` is not subscriptable. -/
def pyGetItem (v : PyVal) (i : Nat) : Except String PyVal :=
  match v with
  | .list xs =>
      match xs.get? i with
      | some x => .ok x
      | Option.none => .error "IndexError: list index out of range"
  | .str s =>
      match s.data.get? i with
      | some c => .ok (.str (String.mk [c]))
      | Option.none => .error "IndexError: string index out of range"
  | .int _ => .error "TypeError: 'int' object is not subscriptable"
  | .float _ => .error "TypeError: 'float' object is not subscriptable"
  | .none => .error "TypeError: 'NoneType' object is not subscriptable"

mutual

/-- Text a value contributes to an f-string (`f"... {v} ..."`), with
`quoted := true` for elements inside a rendered list (Python quotes
strings there).  For `float` the exact decimal repr of the IEEE value is
not modelled (the rational is printed instead); no claim inspects a
float's rendering. -/
def pyStrAux (quoted : Bool) : PyVal → String
  | .none => "None"
  | .int n => toString n
  | .float q => toString q
  | .str s => if quoted then "\x27" ++ s ++ "\x27" else s
  | .list xs => "[" ++ String.intercalate ", " (pyStrList xs) ++ "]"

def pyStrList : List PyVal → List String
  | [] => []
  | v :: vs => pyStrAux true v :: pyStrList vs

end

/-- Python `str(v)` / f-string interpolation at top level. -/
def pyStr (v : PyVal) : String :=
  pyStrAux false v

/-! ## Safety Filter (`src/app.py`, `get_all_commands`, lines 285-300) -/

/-- The blocked-command test of `get_all_commands` (line 295):
`cmd.strip().startswith("tp @") or " tp @a" in cmd or " tp @p" in cmd`. -/
def isUnsafe (cmd : String) : Bool :=
  strStartsWith (pyStrip cmd) "tp @" || strContains cmd " tp @a" || strContains cmd " tp @p"

/-- Per-command action of the Safety Filter (lines 295-298): a blocked
command is replaced in place by the comment-tagged placeholder, any other
command passes through unchanged. -/
def filterCommand (cmd : String) : String :=
  if isUnsafe cmd then "# BLOCKED UNSAFE COMMAND: " ++ cmd else cmd

/-- The Safety Filter applied to a list of command strings (the
`safe_cmds` loop of `get_all_commands`, lines 292-298). -/
def safetyFilter (cmds : List String) : List String :=
  cmds.map filterCommand

/-- A scene of the `app.py` storyboard shape: a name and raw command
strings (the GPT output schema of `create_storyboard`). -/
structure AppScene where
  name : Option String
  commands : List String

/-- `get_all_commands` (lines 285-300) for a non-empty storyboard: per
scene a header line followed by the scene's filtered commands.  (The
`if not storyboard: return []` guard concerns the process-global
`storyboard` being `None`; the claims quantify over command lists.) -/
def get_all_commands (scenes : List AppScene) : List String :=
  scenes.flatMap
    (fun s => ("# === " ++ (s.name.getD "Scene") ++ " ===") :: safetyFilter s.commands)

/-! ## Storyboard data model (`src/src/bbs_commands.py`)

A missing optional dictionary key is modelled by the corresponding
`.get` default of the source: fields read with a single fixed default
hold that default directly; fields read with two different defaults at
different source lines (`actor['id']`, `actor['name']`, `actor['type']`,
camera `height`) are `Option`-valued, with the `.get` default applied at
each use site exactly as in the source. -/

/-- One entry of an actor's `actions` list. -/
structure SAction where
  /-- `action.get('tick', 0)`; ticks are integers throughout the source. -/
  tick : Int := 0
  /-- `action.get('type', 'idle')`. -/
  type : String := "idle"
  /-- `action.get('position', [0, 64, 0])` (spawn, teleport). -/
  position : PyVal := PyVal.list [.int 0, .int 64, .int 0]
  /-- `action.get('target_position', [0, 64, 0])` (walk_to / run_to). -/
  target_position : PyVal := PyVal.list [.int 0, .int 64, .int 0]
  /-- `action.get('target', '0 0 0')` (look_at). -/
  target : PyVal := PyVal.str "0 0 0"

/-- One entry of a scene's `actors` list. -/
structure Actor where
  /-- `'id'` key: read as `actor.get('id', 'unknown')` at line 181 and
  `actor.get('id', 'actor_001')` at line 183. -/
  id : Option String := Option.none
  /-- `'name'` key: `actor.get('name', 'actor')`. -/
  name : Option String := Option.none
  /-- `'type'` key: `actor.get('type', 'unknown')`. -/
  type : Option String := Option.none
  actions : List SAction := []

/-- One entry of `camera['movements']`. -/
structure CamMovement where
  /-- `movement.get('tick_start', 0)`. -/
  tick_start : Int := 0
  /-- `movement.get('tick_end', 100)`. -/
  tick_end : Int := 100
  /-- `movement.get('type', 'static')`. -/
  type : String := "static"
  /-- `movement.get('position', [0, 70, 0])` (static). -/
  position : PyVal := PyVal.list [.int 0, .int 70, .int 0]
  /-- `movement.get('center', [0, 64, 0])` (orbit). -/
  center : PyVal := PyVal.list [.int 0, .int 64, .int 0]
  /-- `movement.get('radius', 10)` (orbit). -/
  radius : PyVal := PyVal.int 10
  /-- `movement.get('start_angle', 0)` (orbit). -/
  start_angle : PyVal := PyVal.int 0
  /-- `movement.get('end_angle', 360)` (orbit). -/
  end_angle : PyVal := PyVal.int 360
  /-- `'height'` key: `movement.get('height', 5)` for orbit,
  `movement.get('height', 2)` for follow. -/
  height : Option PyVal := Option.none
  /-- `movement.get('start_position', [0, 70, 0])` (dolly). -/
  start_position : PyVal := PyVal.list [.int 0, .int 70, .int 0]
  /-- `movement.get('end_position', [10, 70, 0])` (dolly). -/
  end_position : PyVal := PyVal.list [.int 10, .int 70, .int 0]
  /-- `movement.get('look_at', None)` (dolly); the source uses it only
  as a truthiness test and a registry key, so a string suffices. -/
  look_at : Option String := Option.none
  /-- `movement.get('target', None)` (follow). -/
  target : PyVal := PyVal.none
  /-- `movement.get('distance', 5)` (follow). -/
  distance : PyVal := PyVal.int 5

/-- One entry of `camera['fov_keyframes']`. -/
structure FovKeyframe where
  /-- `fov_kf.get('tick', 0)`. -/
  tick : Int := 0
  /-- `fov_kf.get('fov', 70)`. -/
  fov : PyVal := PyVal.int 70

/-- The `camera` dictionary of a scene. -/
structure Camera where
  movements : List CamMovement := []
  fov_keyframes : List FovKeyframe := []

/-- One entry of a scene's `effects` list. -/
structure Effect where
  /-- `effect.get('tick', 0)`. -/
  tick : Int := 0
  /-- `effect.get('type', 'particles')`. -/
  type : String := "particles"
  /-- `effect.get('particle_type', 'cloud')`. -/
  particle_type : String := "cloud"
  /-- `effect.get('position', [0, 64, 0])`. -/
  position : PyVal := PyVal.list [.int 0, .int 64, .int 0]
  /-- `effect.get('count', 10)`. -/
  count : PyVal := PyVal.int 10

/-- The `setting` dictionary of a scene; a missing `setting` key yields
`{}` whose nested `.get`s produce exactly these defaults. -/
structure Setting where
  /-- `scene.get('setting', {}).get('time_of_day', 'day')`. -/
  time_of_day : String := "day"
  /-- `scene.get('setting', {}).get('weather', 'clear')`. -/
  weather : String := "clear"
  /-- `scene.get('setting', {}).get('world_modifications', [])`. -/
  world_modifications : List String := []

/-- One entry of the storyboard's `scenes` list. -/
structure Scene where
  /-- `scene.get('name', 'unnamed_scene')`. -/
  name : Option String := Option.none
  /-- `scene.get('duration_seconds', 30)`; numeric durations are
  modelled as integers (every duration in the repository and in the
  claims is one). -/
  duration_seconds : Int := 30
  setting : Setting := {}
  actors : List Actor := []
  camera : Camera := {}
  effects : List Effect := []

/-- A parsed storyboard whose top level is a mapping. -/
structure Storyboard where
  /-- `storyboard.get('title', 'Untitled')`. -/
  title : String := "Untitled"
  /-- `storyboard.get('scenes', [])`. -/
  scenes : List Scene := []

/-! ## Compiled commands -/

/-- `BBSCommand` dataclass (lines 15-29). -/
structure BBSCommand where
  tick : Int
  command : String
  description : String := ""
  command_type : String := "minecraft"
  deriving DecidableEq

/-- `BBSCommand.to_dict` (lines 23-29). -/
structure CmdDict where
  tick : Int
  command : String
  description : String
  type : String
  deriving DecidableEq

def BBSCommand.to_dict (c : BBSCommand) : CmdDict :=
  { tick := c.tick, command := c.command, description := c.description, type := c.command_type }

/-- `CommandSequence` dataclass (lines 32-44). -/
structure CommandSequence where
  name : String
  commands : List BBSCommand := []
  duration_ticks : Int := 0
  deriving DecidableEq

/-- `CommandSequence.add` (lines 39-41): append and raise
`duration_ticks` to the new tick if larger. -/
def CommandSequence.add (seq : CommandSequence) (tick : Int) (command : String)
    (description : String) (cmd_type : String) : CommandSequence :=
  { seq with
    commands := seq.commands ++ [{ tick := tick, command := command,
                                   description := description, command_type := cmd_type }],
    duration_ticks := max seq.duration_ticks tick }

/-- `CommandSequence.to_list` (lines 43-44): dictionaries of the
commands stable-sorted by tick (Python `sorted` is stable). -/
def CommandSequence.to_list (seq : CommandSequence) : List CmdDict :=
  (pySorted (fun a b => a.tick ≤ b.tick) seq.commands).map BBSCommand.to_dict

/-! ## Entity registry and resolver (`BBSCommandGenerator`) -/

/-- Minecraft ticks per second (`BBSCommandGenerator.TPS`, line 59). -/
def TPS : Int := 20

/-- One value of `self.actor_registry` (line 252):
`{"name": ..., "position": ..., "type": ...}`. -/
structure RegEntry where
  name : String
  position : PyVal
  type : String

/-- `self.actor_registry`: a Python dict modelled as an insertion-ordered
association list with in-place update on an existing key. -/
abbrev Registry := List (String × RegEntry)

/-- `BBSCommandGenerator.__init__` (lines 72-80): a fresh generator
instance starts with `self.actor_registry = {}`.  (`base_position` is
stored but never read again, so it is not modelled.) -/
def initRegistry : Registry := []

def regFind? (reg : Registry) (k : String) : Option RegEntry :=
  (reg.find? (fun p => p.1 == k)).map Prod.snd

/-- Python dict assignment `reg[k] = v`. -/
def regInsert (reg : Registry) (k : String) (v : RegEntry) : Registry :=
  if (reg.find? (fun p => p.1 == k)).isSome then
    reg.map (fun p => if p.1 == k then (k, v) else p)
  else reg ++ [(k, v)]

def lookupAssoc (m : List (String × String)) (k : String) : Option String :=
  (m.find? (fun p => p.1 == k)).map Prod.snd

/-- `titan_entities` literal dict (lines 193-205). -/
def titanEntities : List (String × String) :=
  [("titan", "titans:zombie_titan"),
   ("zombie_titan", "titans:zombie_titan"),
   ("creeper_titan", "titans:creeper_titan"),
   ("skeleton_titan", "titans:skeleton_titan"),
   ("spider_titan", "titans:spider_titan"),
   ("blaze_titan", "titans:blaze_titan"),
   ("ghast_titan", "titans:ghast_titan"),
   ("slime_titan", "titans:slime_titan"),
   ("ender_colossus", "titans:ender_colossus"),
   ("witherzilla", "titans:witherzilla"),
   ("ultima_iron_golem", "titans:ultima_iron_golem_titan")]

/-- The titan sub-kind list of line 225. -/
def titanKinds : List String :=
  ["zombie", "creeper", "skeleton", "spider", "blaze", "ghast", "slime"]

/-- Entity-identifier resolution of the spawn branch (lines 210-235).
`actor_type` and `clean_name` are already lowercased with spaces replaced
by underscores.  The source initializes `entity_id = None` and tests
`if not entity_id` between the steps; every assignment below produces a
non-empty string, so the chain is an if/else cascade. -/
def spawnEntityId (actor_type clean_name : String) : String :=
  if actor_type != "unknown" && actor_type != "actor" && !(strContains actor_type "titan") then
    "minecraft:" ++ actor_type
  else
    match lookupAssoc titanEntities clean_name with
    | some e => e
    | Option.none =>
      if strContains clean_name "titan" then
        match titanKinds.find? (fun p => strContains clean_name p) with
        | some p => "titans:" ++ p ++ "_titan"
        | Option.none => "titans:zombie_titan"
      else if strContains clean_name "dragon" then "minecraft:ender_dragon"
      else "minecraft:" ++ clean_name

/-- Custom-name NBT of lines 237-242: attached when the lowercased
display name differs from the normalized declared type AND is not a
substring of the resolved identifier. -/
def spawnNbt (actor_name actor_type entity_id : String) : String :=
  if pyLower actor_name != actor_type && !(strContains entity_id (pyLower actor_name)) then
    "\x7bCustomName:\x27\x7b\"text\":\"" ++ actor_name ++ "\"\x7d\x27\x7d"
  else ""

/-- Spawn command text (lines 244-249), including the ender-dragon
override that replaces the whole command (and with it any custom name). -/
def spawnCommand (actor_name actor_type entity_id : String) : String :=
  if strContains entity_id "ender_dragon" then
    "execute at @p run summon " ++ entity_id ++ " ~ ~ ~ \x7bDragonPhase:0\x7d"
  else
    "execute at @p run summon " ++ entity_id ++ " ~ ~ ~ " ++ spawnNbt actor_name actor_type entity_id

/-- `known_types` of `_get_target_selector` (line 316). -/
def knownTypes : List String :=
  ["zombie", "skeleton", "creeper", "cow", "sheep", "pig", "chicken", "dragon", "titan"]

/-- `_get_target_selector` (lines 309-330). -/
def getTargetSelector (name actor_type : String) : String :=
  let clean_name := normName name
  let clean_type := normName actor_type
  let is_generic := knownTypes.contains clean_name || clean_name == clean_type
  if is_generic || strContains clean_name "dragon" then
    let entity_type := if clean_type != "unknown" then clean_type else clean_name
    let entity_type :=
      if strContains clean_name "dragon" then "minecraft:ender_dragon"
      else if strContains clean_name "titan" then "titans:zombie_titan"
      else if !(strContains entity_type ":") then "minecraft:" ++ entity_type
      else entity_type
    "@e[type=" ++ entity_type ++ ",sort=nearest,limit=1]"
  else
    "@e[name=\"" ++ name ++ "\",sort=nearest,limit=1]"

/-! ## Position parsing (`_parse_pos`, lines 82-95) -/

/-- The loop body of `_parse_pos`: one coordinate, with
`except (ValueError, TypeError): append(0.0)`. -/
def parsePosElem (x : PyVal) : ℚ :=
  match x with
  | .str s =>
      let val := removeChar '~' s
      let val := if val == "" then "0" else val
      (pyFloatOfString val).getD 0
  | .int n => (n : ℚ)
  | .float q => q
  | _ => 0

/-- `_parse_pos(pos)`: iterate and convert.  Iterating a string yields
its characters (Python semantics); iterating a non-iterable raises
`TypeError` before the guarded body runs. -/
def parsePos (pos : PyVal) : Except String (List ℚ) :=
  match pos with
  | .list xs => .ok (xs.map parsePosElem)
  | .str s => .ok (s.data.map (fun c => parsePosElem (.str (String.mk [c]))))
  | _ => .error "TypeError: object is not iterable"

/-- `xs[i]` on a parsed coordinate list. -/
def qListGet (xs : List ℚ) (i : Nat) : Except String ℚ :=
  match xs.get? i with
  | some x => .ok x
  | Option.none => .error "IndexError: list index out of range"

/-- `xs[i]` on a list of strings (the `look_at` split). -/
def strListGet (xs : List String) (i : Nat) : Except String String :=
  match xs.get? i with
  | some x => .ok x
  | Option.none => .error "IndexError: list index out of range"

/-! ## Scene setup commands -/

/-- `_time_command` (lines 155-166): `time_map.get(time_of_day, "time set day")`. -/
def timeCommand (scene : Scene) : String :=
  match scene.setting.time_of_day with
  | "day" => "time set day"
  | "noon" => "time set noon"
  | "sunset" => "time set 12000"
  | "night" => "time set night"
  | "midnight" => "time set midnight"
  | "sunrise" => "time set 23000"
  | _ => "time set day"

/-- `_weather_command` (lines 168-177). -/
def weatherCommand (scene : Scene) : String :=
  match scene.setting.weather with
  | "clear" => "weather clear"
  | "rain" => "weather rain"
  | "thunder" => "weather thunder"
  | "storm" => "weather thunder"
  | _ => "weather clear"

/-- World-modification dispatch (lines 114-128); every branch assigns a
non-empty command, so the `if cmd:` guard always passes. -/
def worldModCommand (mod : String) : String :=
  let mod_lower := pyLower mod
  if strContains mod_lower "castle" then
    "execute at @p run place structure minecraft:pillager_outpost ~ ~ ~"
  else if strContains mod_lower "village" then
    "execute at @p run place structure minecraft:village_plains ~ ~ ~"
  else if strContains mod_lower "house" then
    "execute at @p run place structure minecraft:plains_village_shepherds_house_1 ~ ~ ~"
  else if strContains mod_lower "tower" then
    "execute at @p run place structure minecraft:pillager_outpost ~ ~ ~"
  else
    "say [Agent] World Mod: " ++ mod

/-! ## Actor actions (`_generate_actor_commands`, lines 179-307) -/

/-- First-character class of the `look_at` coordinate test
`re.match(r'[\d\s\.\-~]+', target)`: `re.match` anchors at the start, so
the pattern succeeds exactly when the string is non-empty and its first
character is a digit, whitespace, `.`, `-` or `~`. -/
def lookAtCoordStart (c : Char) : Bool :=
  c.isDigit || c.isWhitespace || c == '.' || c == '-' || c == '~'

/-- Python `str.split()` with no argument: split on whitespace runs,
discarding empty pieces. -/
def splitWsAux : List Char → List Char → List (List Char)
  | [], acc => if acc.isEmpty then [] else [acc.reverse]
  | c :: rest, acc =>
      if c.isWhitespace then
        if acc.isEmpty then splitWsAux rest []
        else acc.reverse :: splitWsAux rest []
      else splitWsAux rest (c :: acc)

def pySplitWs (s : String) : List String :=
  (splitWsAux s.data []).map String.mk

/-- The body of the `for action in actor.get('actions', [])` loop
(lines 185-305), threading the running `CommandSequence` and the
instance registry. -/
def processAction (actor : Actor) (st : CommandSequence × Registry) (action : SAction) :
    Except String (CommandSequence × Registry) :=
  let (seq, reg) := st
  let actor_name := actor.name.getD "actor"
  let actor_id := actor.id.getD "actor_001"
  let tick := action.tick
  let action_type := action.type
  if action_type == "spawn" then
    let raw_pos := action.position
    let actor_type := normName (actor.type.getD "unknown")
    let clean_name := normName actor_name
    let entity_id := spawnEntityId actor_type clean_name
    let cmd := spawnCommand actor_name actor_type entity_id
    let seq := seq.add tick cmd ("Spawn " ++ actor_name) "minecraft"
    let reg := regInsert reg actor_id
      { name := actor_name, position := raw_pos, type := entity_id }
    .ok (seq, reg)
  else
    let selector := getTargetSelector actor_name (actor.type.getD "unknown")
    if action_type == "walk_to" || action_type == "run_to" then do
      let target := action.target_position
      let t0 ← pyGetItem target 0
      let t1 ← pyGetItem target 1
      let t2 ← pyGetItem target 2
      let cmd := "tp " ++ selector ++ " " ++ pyStr t0 ++ " " ++ pyStr t1 ++ " " ++ pyStr t2
      .ok (seq.add tick cmd (actor_name ++ " moves to " ++ pyStr target) "minecraft", reg)
    else if action_type == "sit" then
      let cmd :=
        if strContains (pyLower actor_name) "camel" then
          "data merge entity " ++ selector ++ " \x7bPose:sitting\x7d"
        else
          "data merge entity " ++ selector ++ " \x7bSitting:1b\x7d"
      .ok (seq.add tick cmd (actor_name ++ " sits") "minecraft", reg)
    else if action_type == "teleport" then do
      let pos := action.position
      let p0 ← pyGetItem pos 0
      let p1 ← pyGetItem pos 1
      let p2 ← pyGetItem pos 2
      let cmd := "tp " ++ selector ++ " " ++ pyStr p0 ++ " " ++ pyStr p1 ++ " " ++ pyStr p2
      .ok (seq.add tick cmd ("Teleport " ++ actor_name) "minecraft", reg)
    else if action_type == "jump" then
      let cmd := "execute as " ++ selector ++ " run data merge entity @s \x7bMotion:[0.0d,0.6d,0.0d]\x7d"
      .ok (seq.add tick cmd (actor_name ++ " jumps") "minecraft", reg)
    else if action_type == "attack" || action_type == "swipe" then
      let cmd1 := "execute at " ++ selector ++ " run playsound entity.player.attack.strong master @a ~ ~ ~ 1 1"
      let cmd2 := "execute as " ++ selector ++ " run data merge entity @s \x7bMotion:[0.0d,0.2d,0.4d]\x7d"
      let seq := seq.add tick cmd1 (actor_name ++ " attacks (sound)") "minecraft"
      .ok (seq.add tick cmd2 (actor_name ++ " attacks (motion)") "minecraft", reg)
    else if action_type == "interact" then
      let cmd := "execute at " ++ selector ++ " run playsound entity.villager.trade master @a ~ ~ ~ 1 1"
      .ok (seq.add tick cmd (actor_name ++ " interacts") "minecraft", reg)
    else if action_type == "look_at" then
      match action.target with
      | PyVal.list xs => do
          let t0 ← pyGetItem (PyVal.list xs) 0
          let t1 ← pyGetItem (PyVal.list xs) 1
          let t2 ← pyGetItem (PyVal.list xs) 2
          let cmd := "execute as " ++ selector ++ " at @s run facing "
            ++ pyStr t0 ++ " " ++ pyStr t1 ++ " " ++ pyStr t2
          .ok (seq.add tick cmd
            (actor_name ++ " looks at " ++ pyStr (PyVal.list xs)) "minecraft", reg)
      | PyVal.str s =>
          if (s.data.head?.map lookAtCoordStart).getD false then do
            let parts := pySplitWs s
            let t0 ← strListGet parts 0
            let t1 ← strListGet parts 1
            let t2 ← strListGet parts 2
            let cmd := "execute as " ++ selector ++ " at @s run facing "
              ++ t0 ++ " " ++ t1 ++ " " ++ t2
            .ok (seq.add tick cmd
              (actor_name ++ " looks at " ++ pyStr (PyVal.list (parts.map PyVal.str))) "minecraft", reg)
          else
            let target_sel := getTargetSelector s "unknown"
            let cmd := "execute as " ++ selector ++ " at @s run facing entity " ++ target_sel ++ " eyes"
            .ok (seq.add tick cmd (actor_name ++ " looks at " ++ s) "minecraft", reg)
      | _ =>
          -- `_get_target_selector(target, 'unknown')` calls `.lower()` on a
          -- non-string target
          .error "AttributeError: object has no attribute lower"
    else
      -- unrecognized action kind: no command emitted
      .ok (seq, reg)

/-- `_generate_actor_commands` (lines 179-307). -/
def generateActorCommands (reg : Registry) (actor : Actor) :
    Except String (CommandSequence × Registry) :=
  let seq0 : CommandSequence := { name := "actor_" ++ (actor.id.getD "unknown") }
  actor.actions.foldlM (processAction actor) (seq0, reg)

/-! ## Camera interpolation (`_generate_camera_commands`, lines 333-407)

The orbit position components `center ± radius·cos/sin(radians(angle))`
are transcendental floating-point values with no exact shallow
embedding.  No claim inspects an orbit coordinate's text, so those two
components are rendered by the stand-in `trigText`, which records the
exact inputs of the computation instead of its float value.  The purely
rational components (interpolation fractions, dolly positions, heights)
are computed exactly over `ℚ`. -/

/-- Stand-in text for `f"{base + radius*cos_or_sin(radians(angle)):.1f}"`. -/
def trigText (tag : String) (base radius angle : ℚ) : String :=
  tag ++ "(" ++ toString base ++ "," ++ toString radius ++ "," ++ toString angle ++ ")"

/-- Stand-in text for the one-decimal float format `f"{v:.1f}"` on an
exactly-known rational (the decimal rendering of the IEEE double is not
modelled; no claim inspects it). -/
def fmt1 (q : ℚ) : String :=
  toString q

/-- `num_frames = min(20, (tick_end - tick_start) // 5)` (lines 358 and
376); Python `//` is floor division. -/
def numFrames (tick_start tick_end : Int) : Int :=
  min 20 (Int.fdiv (tick_end - tick_start) 5)

/-- Frame tick `tick_start + int((tick_end - tick_start) * t)` with
`t = i / num_frames` (lines 367 and 383).  When the frame loop runs,
`num_frames ≥ 1` and `tick_end - tick_start ≥ 5`, so the float product is
non-negative and `int(...)` truncation equals the rational floor. -/
def frameTick (tick_start tick_end : Int) (i : Nat) (num_frames : Int) : Int :=
  tick_start + Int.fdiv ((tick_end - tick_start) * i) num_frames

/-- One orbit keyframe (lines 359-369). -/
def orbitFrame (m : CamMovement) (center : List ℚ) (radius start_angle end_angle height : ℚ)
    (num_frames : Int) (sq : CommandSequence) (i : Nat) : Except String CommandSequence := do
  let t : ℚ := (i : ℚ) / (num_frames : ℚ)
  let angle := start_angle + (end_angle - start_angle) * t
  let c0 ← qListGet center 0
  let c2 ← qListGet center 2
  let c1 ← qListGet center 1
  let tick := frameTick m.tick_start m.tick_end i num_frames
  let cmd := "tp @p " ++ trigText "cos" c0 radius angle ++ " " ++ fmt1 (c1 + height) ++ " "
    ++ trigText "sin" c2 radius angle ++ " facing " ++ pyStr (.float c0) ++ " "
    ++ pyStr (.float c1) ++ " " ++ pyStr (.float c2)
  .ok (sq.add tick cmd ("Orbit frame " ++ toString i) "camera")

/-- One dolly keyframe (lines 377-388); `reg` is read for the `look_at`
registry test of line 384. -/
def dollyFrame (reg : Registry) (m : CamMovement) (start_pos end_pos : List ℚ)
    (num_frames : Int) (sq : CommandSequence) (i : Nat) : Except String CommandSequence := do
  let t : ℚ := (i : ℚ) / (num_frames : ℚ)
  let s0 ← qListGet start_pos 0
  let e0 ← qListGet end_pos 0
  let x := s0 + (e0 - s0) * t
  let s1 ← qListGet start_pos 1
  let e1 ← qListGet end_pos 1
  let y := s1 + (e1 - s1) * t
  let s2 ← qListGet start_pos 2
  let e2 ← qListGet end_pos 2
  let z := s2 + (e2 - s2) * t
  let tick := frameTick m.tick_start m.tick_end i num_frames
  let base := "tp @p " ++ fmt1 x ++ " " ++ fmt1 y ++ " " ++ fmt1 z
  let cmd :=
    match m.look_at with
    | some la =>
        if la != "" then
          match regFind? reg la with
          | some entry => base ++ " facing entity @e[name=\"" ++ entry.name ++ "\"]"
          | Option.none => base
        else base
    | Option.none => base
  .ok (sq.add tick cmd ("Dolly frame " ++ toString i) "camera")

/-- The body of the `for movement in camera.get('movements', [])` loop
(lines 340-398).  In the orbit and dolly branches, a zero `num_frames`
reaches `t = i / num_frames` with `i = 0` on the first loop iteration
and raises `ZeroDivisionError`; a negative `num_frames` makes
`range(num_frames + 1)` empty, so no frame is emitted at all. -/
def processMovement (reg : Registry) (seq : CommandSequence) (m : CamMovement) :
    Except String CommandSequence :=
  if m.type == "static" then do
    let p0 ← pyGetItem m.position 0
    let p1 ← pyGetItem m.position 1
    let p2 ← pyGetItem m.position 2
    let cmd := "tp @p " ++ pyStr p0 ++ " " ++ pyStr p1 ++ " " ++ pyStr p2
    .ok (seq.add m.tick_start cmd "Static camera position" "camera")
  else if m.type == "orbit" then do
    let center ← parsePos m.center
    let radius ← pyFloat m.radius
    let start_angle ← pyFloat m.start_angle
    let end_angle ← pyFloat m.end_angle
    let height ← pyFloat (m.height.getD (PyVal.int 5))
    let nf := numFrames m.tick_start m.tick_end
    if nf + 1 ≤ 0 then .ok seq
    else if nf == 0 then .error "ZeroDivisionError: division by zero"
    else
      List.foldlM (orbitFrame m center radius start_angle end_angle height nf) seq
            (List.range (nf.toNat + 1))
  else if m.type == "dolly" then do
    let start_pos ← parsePos m.start_position
    let end_pos ← parsePos m.end_position
    let nf := numFrames m.tick_start m.tick_end
    if nf + 1 ≤ 0 then .ok seq
    else if nf == 0 then .error "ZeroDivisionError: division by zero"
    else
      List.foldlM (dollyFrame reg m start_pos end_pos nf) seq
            (List.range (nf.toNat + 1))
  else if m.type == "follow" then
    -- `height` is read with default 2 but does not appear in the text
    let cmd := "# Camera follows " ++ pyStr m.target ++ " at distance " ++ pyStr m.distance
    .ok (seq.add m.tick_start cmd "Follow camera setup" "camera")
  else
    .ok seq

/-- `_generate_camera_commands` (lines 333-407): all movements, then the
FOV keyframe placeholders. -/
def generateCameraCommands (reg : Registry) (camera : Camera) :
    Except String CommandSequence := do
  let seq : CommandSequence := { name := "camera" }
  let seq ← camera.movements.foldlM (processMovement reg) seq
  .ok (camera.fov_keyframes.foldl
    (fun sq kf => sq.add kf.tick ("# Set FOV to " ++ pyStr kf.fov) "FOV keyframe" "aperture")
    seq)

/-! ## Effects (`_generate_effect_command`, lines 409-436) -/

/-- `particle_map` literal dict (lines 420-430). -/
def particleMap : List (String × String) :=
  [("explosion", "explosion"), ("smoke", "smoke"), ("fire", "flame"),
   ("magic", "enchant"), ("portal", "portal"), ("heart", "heart"),
   ("cloud", "cloud"), ("dust", "dust 1 0 0 1"), ("growth", "happy_villager")]

/-- `_generate_effect_command` (lines 409-436). -/
def generateEffectCommand (effect : Effect) : Except String BBSCommand :=
  if effect.type == "particles" then do
    let particle := effect.particle_type
    let mc_particle := (lookupAssoc particleMap particle).getD particle
    let p0 ← pyGetItem effect.position 0
    let p1 ← pyGetItem effect.position 1
    let p2 ← pyGetItem effect.position 2
    let cmd := "particle " ++ mc_particle ++ " " ++ pyStr p0 ++ " " ++ pyStr p1 ++ " "
      ++ pyStr p2 ++ " 1 1 1 0 " ++ pyStr effect.count
    .ok { tick := effect.tick, command := cmd, description := particle ++ " effect",
          command_type := "minecraft" }
  else
    .ok { tick := effect.tick, command := "# Unknown effect", description := "Placeholder",
          command_type := "comment" }

/-! ## Scene compilation (`generate_scene_commands`, lines 97-153) -/

/-- The actor loop body of `generate_scene_commands` (lines 134-137):
compile one actor, append its commands directly to the scene sequence
(without touching `duration_ticks`), thread the registry. -/
def sceneActorStep (st : CommandSequence × Registry) (actor : Actor) :
    Except String (CommandSequence × Registry) := do
  let ar ← generateActorCommands st.2 actor
  .ok ({ st.1 with commands := st.1.commands ++ ar.1.commands }, ar.2)

/-- `generate_scene_commands`.  Setup and world-modification commands go
through `seq.add` (which also raises `duration_ticks`); actor, camera
and effect commands are appended to `seq.commands` directly, exactly as
in the source; finally `duration_ticks` is overwritten with
`duration_seconds * TPS` (line 151) regardless of any command tick. -/
def generateSceneCommands (reg : Registry) (scene : Scene) :
    Except String (CommandSequence × Registry) := do
  let seq : CommandSequence := { name := scene.name.getD "unnamed_scene" }
  let seq := seq.add 0 (timeCommand scene) "Set time of day" "minecraft"
  let seq := seq.add 0 (weatherCommand scene) "Set weather" "minecraft"
  let seq := scene.setting.world_modifications.enum.foldl
    (fun sq im => sq.add ((im.1 : Int) * 5) (worldModCommand im.2) ("Build " ++ im.2) "minecraft")
    seq
  let sr ← scene.actors.foldlM sceneActorStep (seq, reg)
  let camSeq ← generateCameraCommands sr.2 scene.camera
  let seq := { sr.1 with commands := sr.1.commands ++ camSeq.commands }
  let effCmds ← scene.effects.mapM generateEffectCommand
  let seq := { seq with commands := seq.commands ++ effCmds }
  .ok ({ seq with duration_ticks := scene.duration_seconds * TPS }, sr.2)

/-! ## Script assembly (`generate_full_script`, lines 438-475) -/

/-- One element of the result's `scenes` list (lines 463-468). -/
structure SceneOut where
  name : String
  start_tick : Int
  duration_ticks : Int
  commands : List CmdDict
  deriving DecidableEq

/-- The `generate_full_script` result dictionary (lines 448-473). -/
structure ScriptResult where
  title : String
  total_duration_ticks : Int
  total_duration_seconds : ℚ
  scenes : List SceneOut
  deriving DecidableEq

/-- The `for scene in storyboard.get('scenes', [])` loop of
`generate_full_script` (lines 456-470), carrying
`current_tick_offset`. -/
def assembleScenes (reg : Registry) (offset : Int) :
    List Scene → Except String (List SceneOut × Int × Registry)
  | [] => .ok ([], offset, reg)
  | scene :: rest => do
    let sr ← generateSceneCommands reg scene
    let shifted : CommandSequence :=
      { sr.1 with commands := sr.1.commands.map (fun c => { c with tick := c.tick + offset }) }
    let out : SceneOut :=
      { name := shifted.name, start_tick := offset, duration_ticks := shifted.duration_ticks,
        commands := shifted.to_list }
    let tail ← assembleScenes sr.2 (offset + shifted.duration_ticks) rest
    .ok (out :: tail.1, tail.2)

/-- `generate_full_script` (lines 438-475).  `reg` is the instance's
`self.actor_registry` at call time: the method reads and extends it but
never clears it. -/
def generate_full_script (reg : Registry) (storyboard : Storyboard) :
    Except String (ScriptResult × Registry) := do
  let asm ← assembleScenes reg 0 storyboard.scenes
  .ok ({ title := storyboard.title,
         total_duration_ticks := asm.2.1,
         total_duration_seconds := (asm.2.1 : ℚ) / (TPS : ℚ),
         scenes := asm.1 }, asm.2.2)

/-! ## Execution scheduler (`src/src/rcon_client.py`, `execute_sequence`,
lines 117-168)

The transport collaborator (`mcr.command`) is a parameter returning
either a response or a raised exception's text.  The scheduler's
observable effects — pacing sleeps and transport submissions — are
returned as an ordered event trace next to the `CommandResult` list.
The model is the connected happy path: the `with MCRcon(...)` context
entry succeeded (its failure path appends one connection-error result
and is outside every claim). -/

/-- `CommandResult` dataclass (lines 26-32). -/
structure CommandResult where
  success : Bool
  response : String
  tick : Int := 0
  command : String := ""
  deriving DecidableEq

/-- An input element of `execute_sequence`: the loop reads
`cmd_data.get('tick', 0)` and `cmd_data.get('command', '')`. -/
structure SchedCmd where
  tick : Int
  command : String
  deriving DecidableEq

/-- An observable side effect of the scheduler: a pacing sleep
(`time.sleep(wait_time)`, seconds) or a transport submission. -/
inductive SchedEvent where
  | sleep (seconds : ℚ)
  | submit (command : String)
  deriving DecidableEq

/-- The `for cmd_data in sorted_cmds` loop (lines 143-163), carrying
`last_tick`.  Comment-tagged commands are recorded as skipped without
advancing `last_tick` (the `continue` at line 155 skips the update at
line 163); a submission records success or failure and always advances
`last_tick`. -/
def execSeqLoop (transport : String → Except String String)
    (tick_delay_ms : Int) (realtime : Bool) (last_tick : Int) :
    List SchedCmd → List SchedEvent × List CommandResult
  | [] => ([], [])
  | c :: rest =>
    let tick := c.tick
    let command := c.command
    let pre : List SchedEvent :=
      if realtime && last_tick < tick then
        [.sleep (((tick - last_tick) * tick_delay_ms : ℚ) / 1000)]
      else []
    if strStartsWith command "#" then
      let t := execSeqLoop transport tick_delay_ms realtime last_tick rest
      (pre ++ t.1, { success := true, response := "Skipped", tick := tick, command := command } :: t.2)
    else
      match transport command with
      | .ok resp =>
          let t := execSeqLoop transport tick_delay_ms realtime tick rest
          (pre ++ .submit command :: t.1,
           { success := true, response := resp, tick := tick, command := command } :: t.2)
      | .error e =>
          let t := execSeqLoop transport tick_delay_ms realtime tick rest
          (pre ++ .submit command :: t.1,
           { success := false, response := e, tick := tick, command := command } :: t.2)

/-- `execute_sequence` (lines 117-168): stable-sort by tick, then run
the loop with `last_tick = 0`. -/
def execute_sequence (transport : String → Except String String)
    (commands : List SchedCmd) (tick_delay_ms : Int) (realtime : Bool) :
    List SchedEvent × List CommandResult :=
  execSeqLoop transport tick_delay_ms realtime 0
    (pySorted (fun a b => a.tick ≤ b.tick) commands)

/-! ## Statement-support definitions -/

/-- A scene's declared duration in ticks: `duration_seconds * TPS`
(lines 150-151), independent of any command tick. -/
def sceneDurationTicks (scene : Scene) : Int :=
  scene.duration_seconds * TPS

/-- The command of a `submit` event, if any. -/
def submittedCommand : SchedEvent → Option String
  | .submit c => some c
  | .sleep _ => Option.none

/-- Modelled from the spec (Execution Scheduler contract, §4.6), as the
reference for the pacing claim: commands sorted by tick; a `last_tick`
cursor starts at 0; before a command whose tick exceeds the cursor and
with `realtime` on, suspend `(tick - last_tick) * tick_delay_ms`
milliseconds (recorded in seconds, as the source's `time.sleep` call
receives); comment-tagged commands are not submitted; each real command
is submitted once and advances the cursor to its tick. -/
def schedulerSpecGo (tick_delay_ms : Int) (realtime : Bool) (cursor : Int) :
    List SchedCmd → List SchedEvent
  | [] => []
  | c :: rest =>
    let pre : List SchedEvent :=
      if realtime && cursor < c.tick then
        [.sleep (((c.tick - cursor) * tick_delay_ms : ℚ) / 1000)]
      else []
    if strStartsWith c.command "#" then
      pre ++ schedulerSpecGo tick_delay_ms realtime cursor rest
    else
      pre ++ SchedEvent.submit c.command :: schedulerSpecGo tick_delay_ms realtime c.tick rest

/-- Modelled from the spec (§4.6): the full reference pacing/submission
trace. -/
def schedulerSpecTrace (commands : List SchedCmd) (tick_delay_ms : Int) (realtime : Bool) :
    List SchedEvent :=
  schedulerSpecGo tick_delay_ms realtime 0 (pySorted (fun a b => a.tick ≤ b.tick) commands)

/-- Witness storyboard for the assembler claim: declared durations 30 s
and 20 s (600 and 400 ticks); the first scene carries an effect at tick
5000, far beyond its declared duration. -/
def assemblerWitnessSb : Storyboard :=
  { title := "T",
    scenes :=
      [{ name := some "one", duration_seconds := 30, effects := [{ tick := 5000 }] },
       { name := some "two", duration_seconds := 20 }] }

/-- An actor whose lowercased display name ("zom") differs from both the
declared type ("zombie") and the resolved identifier
("minecraft:zombie") but is a substring of that identifier. -/
def zomActor : Actor :=
  { id := some "z1", name := some "Zom", type := some "zombie",
    actions := [{ tick := 0, type := "spawn" }] }

/-- Storyboard whose only scene spawns actor id "hero". -/
def staleSpawnSb : Storyboard :=
  { scenes := [{ actors := [{ id := some "hero", name := some "Bob", type := some "cow",
                              actions := [{ tick := 0, type := "spawn" }] }] }] }

/-- Storyboard whose only scene is a dolly camera movement looking at
actor id "hero". -/
def staleDollySb : Storyboard :=
  { scenes := [{ camera := { movements := [{ type := "dolly", tick_start := 0, tick_end := 10,
                                             look_at := some "hero" }] } }] }

/-- The registry state of a generator instance after compiling
`staleSpawnSb` (empty on the unreachable error branch). -/
def staleReg1 : Registry :=
  match generate_full_script initRegistry staleSpawnSb with
  | .ok p => p.2
  | .error _ => []

/-- The command texts of a compiled script, flattened in scene order. -/
def scriptCommands (r : ScriptResult) : List String :=
  (r.scenes.flatMap SceneOut.commands).map CmdDict.command

/-- Scheduler witness input: a comment at tick 5 amid real commands at
ticks 0, 20, 40. -/
def schedWitnessCmds : List SchedCmd :=
  [{ tick := 0, command := "say a" }, { tick := 5, command := "# note" },
   { tick := 20, command := "say b" }, { tick := 40, command := "say c" }]

/-- Scheduler witness transport: fails on exactly one command. -/
def schedWitnessTransport (c : String) : Except String String :=
  if c == "say b" then .error "boom" else .ok "resp"

/-! # Theorems

Helper lemmas first, then one theorem (plus witness or counterexample)
per claim. -/

theorem strContains_append_left (a b sub : String) (h : strContains a sub = true) :
    strContains (a ++ b) sub = true := by
  unfold strContains at h ⊢
  simp only [decide_eq_true_eq, String.data_append] at h ⊢
  rcases h with ⟨s, t, hst⟩
  exact ⟨s, t ++ b.data, by rw [← hst]; simp⟩

theorem strContains_append_right (a b sub : String) (h : strContains b sub = true) :
    strContains (a ++ b) sub = true := by
  unfold strContains at h ⊢
  simp only [decide_eq_true_eq, String.data_append] at h ⊢
  rcases h with ⟨s, t, hst⟩
  exact ⟨a.data ++ s, t, by rw [← hst]; simp⟩

theorem strContains_self_append (a b : String) : strContains (a ++ b) b = true := by
  unfold strContains
  simp only [decide_eq_true_eq, String.data_append]
  exact ⟨a.data, [], by simp⟩

/-- Stripping a list that starts with a non-whitespace character keeps
that character in front. -/
theorem stripList_cons_head (c : Char) (l : List Char) (hc : c.isWhitespace = false) :
    ∃ t, stripList (c :: l) = c :: t := by
  unfold stripList
  rw [List.dropWhile_cons, hc]
  simp only [Bool.false_eq_true, if_false]
  set Y := (c :: l).reverse.dropWhile Char.isWhitespace with hY
  have hYne : Y ≠ [] := by
    rw [hY, Ne, List.dropWhile_eq_nil_iff]
    push_neg
    exact ⟨c, by simp, by simp [hc]⟩
  have hsplit : (c :: l).reverse.takeWhile Char.isWhitespace ++ Y = (c :: l).reverse :=
    List.takeWhile_append_dropWhile Char.isWhitespace (c :: l).reverse
  have hlast : Y.getLast? = some c := by
    have h1 : (c :: l).reverse.getLast? = some c := by
      rw [List.getLast?_reverse]; rfl
    rw [← hsplit, List.getLast?_append] at h1
    cases hYl : Y.getLast? with
    | none => exact absurd (List.getLast?_eq_none_iff.mp hYl) hYne
    | some y =>
        rw [hYl] at h1
        simpa using h1
  have hhead : Y.reverse.head? = some c := by
    rw [List.head?_reverse]; exact hlast
  cases hYr : Y.reverse with
  | nil => rw [hYr] at hhead; simp at hhead
  | cons a t =>
      rw [hYr] at hhead
      simp only [List.head?_cons, Option.some.injEq] at hhead
      exact ⟨t, by rw [hhead]⟩

/-- The blocked placeholder never matches the leading `"tp @"` rule: it
starts with `'#'` even after stripping. -/
theorem strStartsWith_placeholder_tp (cmd : String) :
    strStartsWith (pyStrip ("# BLOCKED UNSAFE COMMAND: " ++ cmd)) "tp @" = false := by
  unfold strStartsWith pyStrip
  have hdata : ("# BLOCKED UNSAFE COMMAND: " ++ cmd).data
      = '#' :: (" BLOCKED UNSAFE COMMAND: ".data ++ cmd.data) := by
    rw [String.data_append]; rfl
  rw [hdata]
  rcases stripList_cons_head '#' (" BLOCKED UNSAFE COMMAND: ".data ++ cmd.data) (by decide)
    with ⟨t, ht⟩
  rw [ht]
  rw [decide_eq_false_iff_not]
  intro hpre
  have : ('t' : Char) = '#' := by
    have h4 : "tp @".data = 't' :: "p @".data := rfl
    rw [h4, List.cons_prefix_cons] at hpre
    exact hpre.1
  simp at this

/-- A substring pattern `" tp @x"` occurs in the blocked placeholder
only through the original command: either it occurs in the command
itself, or the command begins with `"tp @x"` (the pattern completing
across the placeholder's trailing `": "` junction). -/
theorem strContains_placeholder (x : Char) (cmd : String)
    (h1 : strContains cmd (String.mk [' ', 't', 'p', ' ', '@', x]) = false)
    (h2 : strStartsWith cmd (String.mk ['t', 'p', ' ', '@', x]) = false) :
    strContains ("# BLOCKED UNSAFE COMMAND: " ++ cmd) (String.mk [' ', 't', 'p', ' ', '@', x]) = false := by
  unfold strContains at h1 ⊢
  unfold strStartsWith at h2
  rw [decide_eq_false_iff_not] at h1 h2 ⊢
  intro hinf
  rw [String.data_append] at hinf
  have hpre : "# BLOCKED UNSAFE COMMAND: ".data
      = ['#', ' ', 'B', 'L', 'O', 'C', 'K', 'E', 'D', ' ', 'U', 'N', 'S', 'A', 'F', 'E',
         ' ', 'C', 'O', 'M', 'M', 'A', 'N', 'D', ':', ' '] := rfl
  rw [hpre] at hinf
  have hmk1 : (String.mk [' ', 't', 'p', ' ', '@', x]).data = [' ', 't', 'p', ' ', '@', x] := rfl
  have hmk2 : (String.mk ['t', 'p', ' ', '@', x]).data = ['t', 'p', ' ', '@', x] := rfl
  rw [hmk1] at h1 hinf
  rw [hmk2] at h2
  simp only [List.cons_append, List.nil_append] at hinf
  simp +decide only [List.infix_cons_iff, List.cons_prefix_cons,
    false_and, and_false, true_and, and_true, false_or, or_false] at hinf
  rcases hinf with h | h
  · exact h2 h
  · exact h1 h

theorem strContains_placeholder_p (cmd : String)
    (h1 : strContains cmd " tp @p" = false) (h2 : strStartsWith cmd "tp @p" = false) :
    strContains ("# BLOCKED UNSAFE COMMAND: " ++ cmd) " tp @p" = false :=
  strContains_placeholder 'p' cmd h1 h2

theorem strContains_placeholder_a (cmd : String)
    (h1 : strContains cmd " tp @a" = false) (h2 : strStartsWith cmd "tp @a" = false) :
    strContains ("# BLOCKED UNSAFE COMMAND: " ++ cmd) " tp @a" = false :=
  strContains_placeholder 'a' cmd h1 h2

/-- The placeholder built from a command free of the substring patterns
(inside and at its start) is itself not blocked. -/
theorem isUnsafe_placeholder (cmd : String)
    (hp : strContains cmd " tp @p" = false) (ha : strContains cmd " tp @a" = false)
    (hsp : strStartsWith cmd "tp @p" = false) (hsa : strStartsWith cmd "tp @a" = false) :
    isUnsafe ("# BLOCKED UNSAFE COMMAND: " ++ cmd) = false := by
  unfold isUnsafe
  rw [strStartsWith_placeholder_tp cmd, strContains_placeholder_p cmd hp hsp,
    strContains_placeholder_a cmd ha hsa]
  rfl

/-- C10: the Safety Filter's blocked set is strictly broader than a
player-only teleport pattern: every command whose stripped text starts
with "tp @" (any selector, including entity selectors), and every
command containing " tp @p" or " tp @a" anywhere, is blocked and
replaced in place by the comment-tagged placeholder — so compiled
actor-movement commands ("tp @e[...] x y z") and camera commands
("tp @p x y z") are all neutralized by the filter. -/
theorem c10_blocked_set (cmd : String)
    (h : strStartsWith (pyStrip cmd) "tp @" = true
        ∨ strContains cmd " tp @p" = true ∨ strContains cmd " tp @a" = true) :
    isUnsafe cmd = true
    ∧ filterCommand cmd = "# BLOCKED UNSAFE COMMAND: " ++ cmd
    ∧ strContains (filterCommand cmd) "BLOCKED" = true := by
  have hu : isUnsafe cmd = true := by
    unfold isUnsafe
    rcases h with h | h | h <;> simp [h]
  refine ⟨hu, by simp [filterCommand, hu], ?_⟩
  simp only [filterCommand, hu, if_true]
  exact strContains_append_left _ cmd "BLOCKED" (by decide)

/-- Witness for C10: an entity-selector teleport (an actor-movement
command shape) and a player teleport (a camera command shape) are both
replaced by placeholders. -/
theorem c10_blocked_set_witness :
    filterCommand "tp @e[type=minecraft:cow,sort=nearest,limit=1] 10 64 0"
      = "# BLOCKED UNSAFE COMMAND: tp @e[type=minecraft:cow,sort=nearest,limit=1] 10 64 0"
    ∧ filterCommand "tp @p 1 70 2" = "# BLOCKED UNSAFE COMMAND: tp @p 1 70 2" :=
  ⟨(c10_blocked_set _ (Or.inl (by decide))).2.1,
   (c10_blocked_set _ (Or.inl (by decide))).2.1⟩

/-- Counterexample to C3 as stated: the filter is not idempotent.  A
blocked "tp @a ..." command's placeholder still contains " tp @a" and is
blocked again on the second pass. -/
theorem c3_idempotent_counterexample :
    safetyFilter (safetyFilter ["tp @a 1 2 3"]) ≠ safetyFilter ["tp @a 1 2 3"] := by
  decide

/-- C3 amended: the Safety Filter is idempotent on every command list in
which no command contains the substring " tp @p" or " tp @a" and no
command's text begins with "tp @p" or "tp @a" (commands blocked by the
leading "tp @" rule alone, e.g. entity-selector teleports, have stable
placeholders; the excluded commands are exactly those whose placeholder
is re-blocked, as the counterexample shows). -/
theorem c3_idempotent_amended (cmds : List String)
    (h : ∀ c ∈ cmds, strContains c " tp @p" = false ∧ strContains c " tp @a" = false
        ∧ strStartsWith c "tp @p" = false ∧ strStartsWith c "tp @a" = false) :
    safetyFilter (safetyFilter cmds) = safetyFilter cmds := by
  unfold safetyFilter
  rw [List.map_map]
  apply List.map_congr_left
  intro c hc
  rcases h c hc with ⟨hp, ha, hsp, hsa⟩
  show filterCommand (filterCommand c) = filterCommand c
  cases hu : isUnsafe c with
  | false => simp [filterCommand, hu]
  | true =>
      simp only [filterCommand, hu, if_true]
      rw [if_neg]
      simp [isUnsafe_placeholder c hp ha hsp hsa]

/-- Witness for the amended C3 at a concrete list: an entity teleport
and an ordinary command. -/
theorem c3_idempotent_amended_witness :
    safetyFilter (safetyFilter ["tp @e[type=zombie,sort=nearest,limit=1] 1 2 3", "say hi"])
      = safetyFilter ["tp @e[type=zombie,sort=nearest,limit=1] 1 2 3", "say hi"] :=
  c3_idempotent_amended _ (by decide)

/-- Counterexample to C4 as stated: the output of the filter can still
match the blocked teleport pattern — the placeholder of a command
containing " tp @p" itself contains " tp @p". -/
theorem c4_filter_shape_counterexample :
    safetyFilter ["execute at @p run tp @p 1 2 3"]
      = ["# BLOCKED UNSAFE COMMAND: execute at @p run tp @p 1 2 3"]
    ∧ isUnsafe "# BLOCKED UNSAFE COMMAND: execute at @p run tp @p 1 2 3" = true := by
  constructor
  · decide
  · decide

/-- C4 amended: the filter preserves length and order, replaces each
blocked command in place by exactly one comment-tagged placeholder that
contains "BLOCKED" and the original text, and passes every other command
through unchanged; no output command matches the leading "tp @" prefix
rule, but a placeholder may still contain the blocked substring patterns
(that is all the counterexample forces). -/
theorem c4_filter_shape_amended (cmds : List String) :
    (safetyFilter cmds).length = cmds.length
    ∧ (∀ i c, cmds.get? i = some c →
        (isUnsafe c = true →
          (safetyFilter cmds).get? i = some ("# BLOCKED UNSAFE COMMAND: " ++ c)
          ∧ strContains ("# BLOCKED UNSAFE COMMAND: " ++ c) "BLOCKED" = true
          ∧ strContains ("# BLOCKED UNSAFE COMMAND: " ++ c) c = true)
        ∧ (isUnsafe c = false → (safetyFilter cmds).get? i = some c))
    ∧ (∀ c ∈ safetyFilter cmds, strStartsWith (pyStrip c) "tp @" = false) := by
  refine ⟨by simp [safetyFilter], fun i c hic => ⟨fun hu => ?_, fun hu => ?_⟩, fun c hc => ?_⟩
  · refine ⟨?_, strContains_append_left _ c "BLOCKED" (by decide), strContains_self_append _ c⟩
    unfold safetyFilter
    rw [List.get?_map, hic]
    simp [filterCommand, hu]
  · unfold safetyFilter
    rw [List.get?_map, hic]
    simp [filterCommand, hu]
  · rcases List.mem_map.mp hc with ⟨x, _, hx⟩
    cases hu : isUnsafe x with
    | true =>
        rw [← hx]
        simp only [filterCommand, hu, if_true]
        exact strStartsWith_placeholder_tp x
    | false =>
        have hx' : c = x := by rw [← hx]; simp [filterCommand, hu]
        subst hx'
        unfold isUnsafe at hu
        simp only [Bool.or_eq_false_iff] at hu
        exact hu.1.1

/-- Witness for the amended C4: scenario D — a command starting with
"tp @p" is blocked and replaced by exactly one placeholder carrying
"BLOCKED" and the original text. -/
theorem c4_filter_shape_amended_witness :
    (safetyFilter ["tp @p 10 64 10"]).length = 1
    ∧ (safetyFilter ["tp @p 10 64 10"]).get? 0
        = some ("# BLOCKED UNSAFE COMMAND: " ++ "tp @p 10 64 10")
    ∧ strContains ("# BLOCKED UNSAFE COMMAND: " ++ "tp @p 10 64 10") "BLOCKED" = true
    ∧ strContains ("# BLOCKED UNSAFE COMMAND: " ++ "tp @p 10 64 10") "tp @p 10 64 10" = true :=
  ⟨(c4_filter_shape_amended ["tp @p 10 64 10"]).1,
   ((c4_filter_shape_amended ["tp @p 10 64 10"]).2.1 0 "tp @p 10 64 10" rfl).1 (by decide)⟩

/-- C2 (code bug): with `tick_end == tick_start` the frame count is
`min(20, 0 // 5) = 0` — there is no minimum-1 clamp in the source — and
the first loop iteration evaluates `t = 0 / 0`: orbit and dolly
interpolation raise ZeroDivisionError instead of emitting a keyframe. -/
theorem c2_zero_division_bug :
    numFrames 0 0 = 0
    ∧ generateCameraCommands initRegistry
        { movements := [{ type := "orbit", tick_start := 0, tick_end := 0 }] }
        = .error "ZeroDivisionError: division by zero"
    ∧ generateCameraCommands initRegistry
        { movements := [{ type := "dolly", tick_start := 100, tick_end := 100 }] }
        = .error "ZeroDivisionError: division by zero" :=
  ⟨rfl, rfl, rfl⟩

/-- Counterexample to C6: this storyboard's top level is a mapping, yet
compilation raises (a static camera movement whose `position` is the
integer 5 hits `pos[0]`, a TypeError) instead of resolving the
wrong-typed field to a default. -/
theorem c6_degrade_counterexample :
    generate_full_script initRegistry
      { scenes := [{ camera := { movements := [{ type := "static", position := PyVal.int 5 }] } }] }
      = .error "TypeError: 'int' object is not subscriptable" := rfl

/-- C6 amended: the degradation guarantee holds for the coordinate lists
routed through `_parse_pos` (orbit center, dolly start/end positions):
every wrong-typed or non-numeric coordinate resolves to 0.0 and the
parser never raises on a list; missing fields resolve to their `.get`
defaults by construction.  Compilation as a whole can still raise on
wrong-typed fields outside these guarded paths (see the
counterexample). -/
theorem c6_degrade_amended (xs : List PyVal) :
    parsePos (PyVal.list xs) = .ok (xs.map parsePosElem)
    ∧ parsePosElem (PyVal.str "not a number") = 0
    ∧ parsePosElem PyVal.none = 0
    ∧ parsePosElem (PyVal.list xs) = 0
    ∧ parsePosElem (PyVal.str "~12.5") = 25 / 2 :=
  ⟨rfl, by with_unfolding_all decide, rfl, rfl, by with_unfolding_all decide⟩

/-- Counterexample to C9 as stated: declared type "zombie", display name
"Zom".  The display name differs from both the declared type and the
resolved identifier "minecraft:zombie", so C9 requires a custom-name
attribute — but the source tests substring containment
(`actor_name.lower() not in entity_id`), "zom" is a substring of
"minecraft:zombie", and the creation command carries no custom name. -/
theorem c9_spawn_counterexample :
    pyLower "Zom" ≠ "zombie"
    ∧ pyLower "Zom" ≠ "minecraft:zombie"
    ∧ (generateActorCommands initRegistry zomActor).map
        (fun p => p.1.commands.map BBSCommand.command)
      = .ok ["execute at @p run summon minecraft:zombie ~ ~ ~ "]
    ∧ strContains "execute at @p run summon minecraft:zombie ~ ~ ~ " "CustomName" = false := by
  refine ⟨by decide, by decide, by with_unfolding_all rfl, by decide⟩

/-- C9 amended: for a spawn whose declared type is present, not
"unknown"/"actor", and (after lowercasing and space normalization) free
of "titan" — and whose resolved identifier is not the ender dragon,
which replaces the whole command — the resolved identifier is the
declared type under the "minecraft:" namespace, and the creation
command carries a custom-name attribute equal to the display name when
the lowercased display name differs from the normalized declared type
AND is not a substring of the resolved identifier (substring
containment, not mere inequality, is what the code tests — the only
change the counterexample forces). -/
theorem c9_spawn_amended (idv namev typev : String) (tick : Int) (pos : PyVal)
    (reg : Registry) (seq : CommandSequence)
    (h1 : normName typev ≠ "unknown") (h2 : normName typev ≠ "actor")
    (h3 : strContains (normName typev) "titan" = false)
    (h4 : strContains ("minecraft:" ++ normName typev) "ender_dragon" = false) :
    spawnEntityId (normName typev) (normName namev) = "minecraft:" ++ normName typev
    ∧ ((pyLower namev ≠ normName typev
        ∧ strContains ("minecraft:" ++ normName typev) (pyLower namev) = false) →
       spawnCommand namev (normName typev) ("minecraft:" ++ normName typev)
         = "execute at @p run summon " ++ ("minecraft:" ++ normName typev) ++ " ~ ~ ~ "
           ++ ("\x7bCustomName:\x27\x7b\"text\":\"" ++ namev ++ "\"\x7d\x27\x7d"))
    ∧ processAction { id := some idv, name := some namev, type := some typev, actions := [] }
        (seq, reg) { tick := tick, type := "spawn", position := pos }
      = .ok (seq.add tick
          (spawnCommand namev (normName typev) ("minecraft:" ++ normName typev))
          ("Spawn " ++ namev) "minecraft",
         regInsert reg idv
           { name := namev, position := pos, type := "minecraft:" ++ normName typev }) := by
  have hid : spawnEntityId (normName typev) (normName namev) = "minecraft:" ++ normName typev := by
    unfold spawnEntityId
    rw [if_pos]
    simp [bne_iff_ne, h1, h2, h3]
  refine ⟨hid, fun hc => ?_, ?_⟩
  · unfold spawnCommand spawnNbt
    rw [if_neg (by simp [h4]), if_pos (by simp [bne_iff_ne, hc.1, hc.2])]
  · unfold processAction
    dsimp only [Option.getD_some]
    rw [if_pos (show (("spawn" == "spawn" : Bool) = true) from rfl), hid]

/-- Witness for the amended C9: scenario B — declared type "zombie",
display name "Zoro", spawn at tick 0 emits the zombie creation command
with custom name "Zoro". -/
theorem c9_spawn_amended_witness :
    spawnCommand "Zoro" (normName "zombie") ("minecraft:" ++ normName "zombie")
      = "execute at @p run summon " ++ ("minecraft:" ++ normName "zombie") ++ " ~ ~ ~ "
        ++ ("\x7bCustomName:\x27\x7b\"text\":\"" ++ "Zoro" ++ "\"\x7d\x27\x7d") :=
  (c9_spawn_amended "z1" "Zoro" "zombie" 0 (PyVal.list []) [] { name := "x" }
    (by decide) (by decide) (by decide) (by decide)).2.1 ⟨by decide, by decide⟩

/-- Counterexample to C5: the Entity Registry is not rebuilt per
`generate_full_script` invocation.  After one compilation spawns actor
id "hero", a second compilation on the same generator instance resolves
the dolly `look_at` against the stale entry (every dolly keyframe gains
a "facing entity" clause naming the actor spawned by the previous
project); the same storyboard compiled on a freshly constructed
generator does not. -/
theorem c5_registry_counterexample :
    (regFind? staleReg1 "hero").isSome = true
    ∧ (generate_full_script staleReg1 staleDollySb).map (fun p => scriptCommands p.1)
      = .ok ["time set day", "weather clear",
             "tp @p 0 70 0 facing entity @e[name=\"Bob\"]",
             "tp @p 5 70 0 facing entity @e[name=\"Bob\"]",
             "tp @p 10 70 0 facing entity @e[name=\"Bob\"]"]
    ∧ (generate_full_script initRegistry staleDollySb).map (fun p => scriptCommands p.1)
      = .ok ["time set day", "weather clear", "tp @p 0 70 0", "tp @p 5 70 0", "tp @p 10 70 0"] := by
  refine ⟨by with_unfolding_all rfl, by with_unfolding_all rfl, by with_unfolding_all rfl⟩

theorem regFind?_isSome_mapUpdate (k' : String) (v : RegEntry) (k : String) (reg : Registry) :
    (regFind? (reg.map (fun p => if p.1 == k' then (k', v) else p)) k).isSome
      = (regFind? reg k).isSome := by
  have hfun : ((fun (q : String × RegEntry) => q.1 == k)
      ∘ (fun p => if p.1 == k' then (k', v) else p)) = fun (q : String × RegEntry) => q.1 == k := by
    funext q
    by_cases hq : q.1 = k' <;> simp [Function.comp, hq]
  unfold regFind?
  rw [List.find?_map, hfun]
  simp

/-- `reg[k'] = v` never removes a key. -/
theorem regFind?_isSome_regInsert (reg : Registry) (k' : String) (v : RegEntry) (k : String)
    (h : (regFind? reg k).isSome = true) :
    (regFind? (regInsert reg k' v) k).isSome = true := by
  unfold regInsert
  by_cases hf : (reg.find? (fun p => p.1 == k')).isSome
  · rw [if_pos hf, regFind?_isSome_mapUpdate]
    exact h
  · rw [if_neg hf]
    unfold regFind? at h ⊢
    rw [List.find?_append]
    cases hfind : reg.find? (fun p => p.1 == k) with
    | none => rw [hfind] at h; simp at h
    | some q => simp [hfind]

set_option maxHeartbeats 1600000 in
/-- Every action branch leaves the registry unchanged or performs one
dict insertion — never a removal. -/
theorem processAction_reg_isSome (actor : Actor) (st : CommandSequence × Registry)
    (action : SAction) (st' : CommandSequence × Registry)
    (h : processAction actor st action = .ok st') (k : String)
    (hk : (regFind? st.2 k).isSome = true) : (regFind? st'.2 k).isSome = true := by
  obtain ⟨seq, reg⟩ := st
  have hk' : (regFind? reg k).isSome = true := hk
  unfold processAction at h
  dsimp only at h
  by_cases c1 : (action.type == "spawn") = true
  · rw [if_pos c1] at h
    injection h with h2
    subst h2
    exact regFind?_isSome_regInsert _ _ _ _ hk'
  · rw [if_neg c1] at h
    by_cases c2 : (action.type == "walk_to" || action.type == "run_to") = true
    · rw [if_pos c2] at h
      cases e0 : pyGetItem action.target_position 0 with
      | error e => rw [e0] at h; exact Except.noConfusion h
      | ok t0 =>
        rw [e0] at h
        cases e1 : pyGetItem action.target_position 1 with
        | error e => rw [e1] at h; exact Except.noConfusion h
        | ok t1 =>
          rw [e1] at h
          cases e2 : pyGetItem action.target_position 2 with
          | error e => rw [e2] at h; exact Except.noConfusion h
          | ok t2 =>
            rw [e2] at h
            injection h with h2
            subst h2
            exact hk'
    · rw [if_neg c2] at h
      by_cases c3 : (action.type == "sit") = true
      · rw [if_pos c3] at h
        injection h with h2
        subst h2
        exact hk'
      · rw [if_neg c3] at h
        by_cases c4 : (action.type == "teleport") = true
        · rw [if_pos c4] at h
          cases e0 : pyGetItem action.position 0 with
          | error e => rw [e0] at h; exact Except.noConfusion h
          | ok t0 =>
            rw [e0] at h
            cases e1 : pyGetItem action.position 1 with
            | error e => rw [e1] at h; exact Except.noConfusion h
            | ok t1 =>
              rw [e1] at h
              cases e2 : pyGetItem action.position 2 with
              | error e => rw [e2] at h; exact Except.noConfusion h
              | ok t2 =>
                rw [e2] at h
                injection h with h2
                subst h2
                exact hk'
        · rw [if_neg c4] at h
          by_cases c5 : (action.type == "jump") = true
          · rw [if_pos c5] at h
            injection h with h2
            subst h2
            exact hk'
          · rw [if_neg c5] at h
            by_cases c6 : (action.type == "attack" || action.type == "swipe") = true
            · rw [if_pos c6] at h
              injection h with h2
              subst h2
              exact hk'
            · rw [if_neg c6] at h
              by_cases c7 : (action.type == "interact") = true
              · rw [if_pos c7] at h
                injection h with h2
                subst h2
                exact hk'
              · rw [if_neg c7] at h
                by_cases c8 : (action.type == "look_at") = true
                · rw [if_pos c8] at h
                  cases htg : action.target with
                  | list xs =>
                    rw [htg] at h
                    dsimp only at h
                    cases e0 : pyGetItem (PyVal.list xs) 0 with
                    | error e => rw [e0] at h; exact Except.noConfusion h
                    | ok t0 =>
                      rw [e0] at h
                      cases e1 : pyGetItem (PyVal.list xs) 1 with
                      | error e => rw [e1] at h; exact Except.noConfusion h
                      | ok t1 =>
                        rw [e1] at h
                        cases e2 : pyGetItem (PyVal.list xs) 2 with
                        | error e => rw [e2] at h; exact Except.noConfusion h
                        | ok t2 =>
                          rw [e2] at h
                          injection h with h2
                          subst h2
                          exact hk'
                  | str s =>
                    rw [htg] at h
                    dsimp only at h
                    by_cases c9 : ((s.data.head?.map lookAtCoordStart).getD false) = true
                    · rw [if_pos c9] at h
                      cases e0 : strListGet (pySplitWs s) 0 with
                      | error e => rw [e0] at h; exact Except.noConfusion h
                      | ok t0 =>
                        rw [e0] at h
                        cases e1 : strListGet (pySplitWs s) 1 with
                        | error e => rw [e1] at h; exact Except.noConfusion h
                        | ok t1 =>
                          rw [e1] at h
                          cases e2 : strListGet (pySplitWs s) 2 with
                          | error e => rw [e2] at h; exact Except.noConfusion h
                          | ok t2 =>
                            rw [e2] at h
                            injection h with h2
                            subst h2
                            exact hk'
                    · rw [if_neg c9] at h
                      injection h with h2
                      subst h2
                      exact hk'
                  | none => rw [htg] at h; exact Except.noConfusion h
                  | int n => rw [htg] at h; exact Except.noConfusion h
                  | float q => rw [htg] at h; exact Except.noConfusion h
                · rw [if_neg c8] at h
                  injection h with h2
                  subst h2
                  exact hk'


/-- Folding `processAction` over an action list preserves registry
keys. -/
theorem foldActions_reg_isSome (actor : Actor) :
    ∀ (acts : List SAction) (st out : CommandSequence × Registry),
      List.foldlM (processAction actor) st acts = .ok out →
      ∀ k, (regFind? st.2 k).isSome = true → (regFind? out.2 k).isSome = true
  | [], st, out, h, k, hk => by
      simp only [List.foldlM_nil] at h
      injection h with h2
      subst h2
      exact hk
  | a :: rest, st, out, h, k, hk => by
      rw [List.foldlM_cons] at h
      cases hpa : processAction actor st a with
      | error e =>
          rw [hpa] at h
          simp [Bind.bind, Except.bind] at h
      | ok st1 =>
          rw [hpa] at h
          simp only [Bind.bind, Except.bind] at h
          exact foldActions_reg_isSome actor rest st1 out h k
            (processAction_reg_isSome actor st a st1 hpa k hk)

/-- `_generate_actor_commands` preserves registry keys. -/
theorem generateActorCommands_reg_isSome (reg : Registry) (actor : Actor)
    (seq : CommandSequence) (reg' : Registry)
    (h : generateActorCommands reg actor = .ok (seq, reg')) (k : String)
    (hk : (regFind? reg k).isSome = true) : (regFind? reg' k).isSome = true := by
  unfold generateActorCommands at h
  exact foldActions_reg_isSome actor actor.actions _ _ h k hk

/-- The per-actor step of `generate_scene_commands` preserves registry
keys. -/
theorem sceneActorStep_reg_isSome (st : CommandSequence × Registry) (actor : Actor)
    (st' : CommandSequence × Registry) (h : sceneActorStep st actor = .ok st') (k : String)
    (hk : (regFind? st.2 k).isSome = true) : (regFind? st'.2 k).isSome = true := by
  unfold sceneActorStep at h
  cases hg : generateActorCommands st.2 actor with
  | error e =>
      rw [hg] at h
      simp [Bind.bind, Except.bind] at h
  | ok ar =>
      rw [hg] at h
      simp only [Bind.bind, Except.bind] at h
      injection h with h2
      subst h2
      exact generateActorCommands_reg_isSome st.2 actor ar.1 ar.2 (by rw [hg]) k hk

theorem foldSceneActors_reg_isSome :
    ∀ (actors : List Actor) (st out : CommandSequence × Registry),
      List.foldlM sceneActorStep st actors = .ok out →
      ∀ k, (regFind? st.2 k).isSome = true → (regFind? out.2 k).isSome = true
  | [], st, out, h, k, hk => by
      simp only [List.foldlM_nil] at h
      injection h with h2
      subst h2
      exact hk
  | a :: rest, st, out, h, k, hk => by
      rw [List.foldlM_cons] at h
      cases hpa : sceneActorStep st a with
      | error e =>
          rw [hpa] at h
          simp [Bind.bind, Except.bind] at h
      | ok st1 =>
          rw [hpa] at h
          simp only [Bind.bind, Except.bind] at h
          exact foldSceneActors_reg_isSome rest st1 out h k
            (sceneActorStep_reg_isSome st a st1 hpa k hk)

/-- `generate_scene_commands` preserves registry keys (the camera and
effect passes never write the registry). -/
theorem generateSceneCommands_reg_isSome (reg : Registry) (scene : Scene)
    (seq : CommandSequence) (reg' : Registry)
    (h : generateSceneCommands reg scene = .ok (seq, reg')) (k : String)
    (hk : (regFind? reg k).isSome = true) : (regFind? reg' k).isSome = true := by
  unfold generateSceneCommands at h
  simp only [bind, Except.bind] at h
  split at h
  · exact Except.noConfusion h
  · rename_i sr hsr
    split at h
    · exact Except.noConfusion h
    · split at h
      · exact Except.noConfusion h
      · injection h with h2
        have hreg : reg' = sr.2 := by
          have h3 := congrArg Prod.snd h2
          simpa using h3.symm
        subst hreg
        exact foldSceneActors_reg_isSome scene.actors _ sr hsr k hk

theorem assembleScenes_reg_isSome :
    ∀ (scenes : List Scene) (reg : Registry) (offset : Int)
      (outs : List SceneOut) (final : Int) (reg' : Registry),
      assembleScenes reg offset scenes = .ok (outs, final, reg') →
      ∀ k, (regFind? reg k).isSome = true → (regFind? reg' k).isSome = true
  | [], reg, offset, outs, final, reg', h, k, hk => by
      unfold assembleScenes at h
      injection h with h2
      have hreg : reg' = reg := by
        have h3 := congrArg (fun p => p.2.2) h2
        simpa using h3.symm
      subst hreg
      exact hk
  | scene :: rest, reg, offset, outs, final, reg', h, k, hk => by
      unfold assembleScenes at h
      simp only [bind, Except.bind] at h
      split at h
      · exact Except.noConfusion h
      · rename_i sr hsr
        split at h
        · exact Except.noConfusion h
        · rename_i tail htail
          injection h with h2
          have hreg : reg' = tail.2.2 := by
            have h3 := congrArg (fun p => p.2.2) h2
            simpa using h3.symm
          subst hreg
          exact assembleScenes_reg_isSome rest sr.2 _ tail.1 tail.2.1 tail.2.2 (by simpa using htail) k
            (generateSceneCommands_reg_isSome reg scene sr.1 sr.2 (by simpa using hsr) k hk)

/-- C5 amended: the Entity Registry is initialized empty at generator
construction, but `generate_full_script` never clears it — every key
present when a compilation starts is still present when it finishes, so
entries registered by one compilation remain visible to later
compilations on the same generator instance (per-project freshness holds
only by constructing a new generator). -/
theorem c5_registry_amended (reg : Registry) (sb : Storyboard) (r : ScriptResult)
    (reg' : Registry) (h : generate_full_script reg sb = .ok (r, reg')) (k : String)
    (hk : (regFind? reg k).isSome = true) :
    (regFind? initRegistry k).isSome = false ∧ (regFind? reg' k).isSome = true := by
  refine ⟨rfl, ?_⟩
  unfold generate_full_script at h
  simp only [bind, Except.bind] at h
  split at h
  · exact Except.noConfusion h
  · rename_i asm hasm
    injection h with h2
    have hreg : reg' = asm.2.2 := by
      have h3 := congrArg Prod.snd h2
      simpa using h3.symm
    subst hreg
    exact assembleScenes_reg_isSome sb.scenes reg 0 asm.1 asm.2.1 asm.2.2 (by simpa using hasm) k hk

/-- Witness for the amended C5: a registry holding key "x" still holds
it after compiling a storyboard. -/
theorem c5_registry_amended_witness :
    ((generate_full_script [("x", { name := "N", position := PyVal.none, type := "minecraft:cow" })]
        { scenes := [] }).map (fun p => (regFind? p.2 "x").isSome)) = .ok true := by
  rcases hrun : generate_full_script
      [("x", { name := "N", position := PyVal.none, type := "minecraft:cow" })]
      { scenes := [] } with e | p
  · have hok : (generate_full_script
        [("x", { name := "N", position := PyVal.none, type := "minecraft:cow" })]
        { scenes := [] }).toBool = true := by with_unfolding_all decide
    rw [hrun] at hok
    simp [Except.toBool] at hok
  · have hsome := (c5_registry_amended _ _ p.1 p.2 (by rw [hrun]) "x" (by decide)).2
    simp [Except.map, hsome]

/-- An accepted scene compilation advertises exactly the declared
duration (`duration_seconds * TPS`, line 151), whatever its command
ticks. -/
theorem generateSceneCommands_duration (reg : Registry) (scene : Scene)
    (seq : CommandSequence) (reg' : Registry)
    (h : generateSceneCommands reg scene = .ok (seq, reg')) :
    seq.duration_ticks = sceneDurationTicks scene := by
  unfold generateSceneCommands at h
  simp only [bind, Except.bind] at h
  split at h
  · exact Except.noConfusion h
  · split at h
    · exact Except.noConfusion h
    · split at h
      · exact Except.noConfusion h
      · injection h with h2
        have hseq := congrArg Prod.fst h2
        rw [← (show _ = seq from hseq)]
        rfl

/-- Structure of the assembler loop: output length matches, the final
cumulative offset is the entry offset plus the sum of all declared
durations, and scene `i` starts at the entry offset plus the sum of the
declared durations of its predecessors, carries its declared duration,
and holds exactly its compiled commands shifted by its start tick. -/
theorem assembleScenes_spec :
    ∀ (scenes : List Scene) (reg : Registry) (offset : Int)
      (outs : List SceneOut) (final : Int) (reg' : Registry),
      assembleScenes reg offset scenes = .ok (outs, final, reg') →
      outs.length = scenes.length
      ∧ final = offset + (scenes.map sceneDurationTicks).sum
      ∧ ∀ i (hiOuts : i < outs.length) (hiScenes : i < scenes.length),
          (outs.get ⟨i, hiOuts⟩).start_tick
            = offset + ((scenes.map sceneDurationTicks).take i).sum
          ∧ (outs.get ⟨i, hiOuts⟩).duration_ticks = sceneDurationTicks (scenes.get ⟨i, hiScenes⟩)
          ∧ ∃ regI seq regO,
              generateSceneCommands regI (scenes.get ⟨i, hiScenes⟩) = .ok (seq, regO)
              ∧ (outs.get ⟨i, hiOuts⟩).commands
                = ({ seq with commands := seq.commands.map (fun c =>
                      { c with tick := c.tick + (outs.get ⟨i, hiOuts⟩).start_tick }) }
                    : CommandSequence).to_list
  | [], reg, offset, outs, final, reg', h => by
      unfold assembleScenes at h
      injection h with h2
      have houts : outs = [] := by
        have h3 := congrArg (fun p => p.1) h2
        simpa using h3.symm
      have hfinal : final = offset := by
        have h3 := congrArg (fun p => p.2.1) h2
        simpa using h3.symm
      subst houts
      subst hfinal
      exact ⟨rfl, by simp, fun i hiOuts hiScenes => absurd hiOuts (by simp)⟩
  | scene :: rest, reg, offset, outs, final, reg', h => by
      unfold assembleScenes at h
      simp only [bind, Except.bind] at h
      split at h
      · exact Except.noConfusion h
      · rename_i sr hsr
        split at h
        · exact Except.noConfusion h
        · rename_i tail htail
          injection h with h2
          have houts : outs = SceneOut.mk sr.1.name offset sr.1.duration_ticks
              ((CommandSequence.mk sr.1.name
                (sr.1.commands.map (fun c => { c with tick := c.tick + offset }))
                sr.1.duration_ticks).to_list) :: tail.1 := by
            have h3 := congrArg (fun p => p.1) h2
            simpa using h3.symm
          have hfinal : final = tail.2.1 := by
            have h3 := congrArg (fun p => p.2.1) h2
            simpa using h3.symm
          have hdur : sr.1.duration_ticks = sceneDurationTicks scene :=
            generateSceneCommands_duration reg scene sr.1 sr.2 (by simpa using hsr)
          obtain ⟨ihlen, ihfinal, ihidx⟩ :=
            assembleScenes_spec rest sr.2 (offset + sr.1.duration_ticks)
              tail.1 tail.2.1 tail.2.2 (by simpa using htail)
          subst houts
          subst hfinal
          refine ⟨by simpa using ihlen, ?_, ?_⟩
          · rw [ihfinal, hdur]
            simp only [List.map_cons, List.sum_cons]
            ring
          · intro i hiOuts hiScenes
            cases i with
            | zero =>
                refine ⟨by simp, by simpa using hdur, reg, sr.1, sr.2, by simpa using hsr, ?_⟩
                simp
            | succ i =>
                have hiOuts' : i < tail.1.length := by simpa using hiOuts
                have hiScenes' : i < rest.length := by simpa using hiScenes
                obtain ⟨ih1, ih2, regI, seq, regO, ih3, ih4⟩ := ihidx i hiOuts' hiScenes'
                refine ⟨?_, by simpa using ih2, regI, seq, regO, ih3, by simpa using ih4⟩
                have : (tail.1.get ⟨i, hiOuts'⟩).start_tick
                    = offset + sr.1.duration_ticks
                      + ((rest.map sceneDurationTicks).take i).sum := ih1
                simp only [List.get_cons_succ]
                rw [this, hdur]
                simp only [List.map_cons, List.take_succ_cons, List.sum_cons]
                ring

/-- C1: whenever `generate_full_script` returns, each scene's
`start_tick` is the sum of the declared duration_ticks
(`duration_seconds * 20`) of all preceding scenes, every command tick of
the scene is offset by exactly that `start_tick`, and
`total_duration_ticks` is the sum of all declared scene duration_ticks —
independent of the actual maximum command tick in any scene (no command
tick appears in the right-hand sides). -/
theorem c1_assembler (reg : Registry) (sb : Storyboard) (r : ScriptResult) (reg' : Registry)
    (h : generate_full_script reg sb = .ok (r, reg')) :
    r.total_duration_ticks = (sb.scenes.map sceneDurationTicks).sum
    ∧ r.scenes.length = sb.scenes.length
    ∧ ∀ i (hiOuts : i < r.scenes.length) (hiScenes : i < sb.scenes.length),
        (r.scenes.get ⟨i, hiOuts⟩).start_tick = ((sb.scenes.map sceneDurationTicks).take i).sum
        ∧ (r.scenes.get ⟨i, hiOuts⟩).duration_ticks
            = sceneDurationTicks (sb.scenes.get ⟨i, hiScenes⟩)
        ∧ ∃ regI seq regO,
            generateSceneCommands regI (sb.scenes.get ⟨i, hiScenes⟩) = .ok (seq, regO)
            ∧ (r.scenes.get ⟨i, hiOuts⟩).commands
              = ({ seq with commands := seq.commands.map (fun c =>
                    { c with tick := c.tick + (r.scenes.get ⟨i, hiOuts⟩).start_tick }) }
                  : CommandSequence).to_list := by
  unfold generate_full_script at h
  simp only [bind, Except.bind] at h
  split at h
  · exact Except.noConfusion h
  · rename_i asm hasm
    injection h with h2
    have hr : r = ScriptResult.mk sb.title asm.2.1 ((asm.2.1 : ℚ) / (TPS : ℚ)) asm.1 := by
      have h3 := congrArg Prod.fst h2
      simpa using h3.symm
    obtain ⟨hlen, hfinal, hidx⟩ :=
      assembleScenes_spec sb.scenes reg 0 asm.1 asm.2.1 asm.2.2 (by simpa using hasm)
    subst hr
    refine ⟨by simpa using hfinal, hlen, ?_⟩
    intro i hiOuts hiScenes
    obtain ⟨h1, h2', h3'⟩ := hidx i hiOuts hiScenes
    exact ⟨by simpa using h1, h2', h3'⟩

/-- Witness for C1: declared durations 30 s and 20 s with a stray effect
at tick 5000 in scene one still yield `total_duration_ticks = 1000`,
`start_tick`s 0 and 600, and declared durations 600 and 400. -/
theorem c1_assembler_witness :
    ((generate_full_script initRegistry assemblerWitnessSb).map (fun p =>
        (p.1.total_duration_ticks, p.1.scenes.map SceneOut.start_tick,
         p.1.scenes.map SceneOut.duration_ticks)))
      = .ok (1000, [0, 600], [600, 400]) := by
  rcases hrun : generate_full_script initRegistry assemblerWitnessSb with e | p
  · have hok : (generate_full_script initRegistry assemblerWitnessSb).toBool = true := by
      with_unfolding_all decide
    rw [hrun] at hok
    simp [Except.toBool] at hok
  · obtain ⟨htot, hlen, hidx⟩ := c1_assembler _ _ p.1 p.2 (by rw [hrun])
    have hlen2 : p.1.scenes.length = 2 := by rw [hlen]; rfl
    obtain ⟨a, b, hab⟩ := List.length_eq_two.mp hlen2
    have ha : a.start_tick = 0 := by
      have := (hidx 0 (by omega) (by decide)).1
      simpa [hab] using this
    have hb : b.start_tick = 600 := by
      have := (hidx 1 (by omega) (by decide)).1
      simpa [hab] using this
    have had : a.duration_ticks = 600 := by
      have := (hidx 0 (by omega) (by decide)).2.1
      simpa [hab] using this
    have hbd : b.duration_ticks = 400 := by
      have := (hidx 1 (by omega) (by decide)).2.1
      simpa [hab] using this
    have htot' : p.1.total_duration_ticks = 1000 := by
      rw [htot]; rfl
    simp [Except.map, hab, ha, hb, had, hbd, htot']

theorem execSeqLoop_trace (f : String → Except String String) (d : Int) (rt : Bool) :
    ∀ (l : List SchedCmd) (last : Int),
      (execSeqLoop f d rt last l).1 = schedulerSpecGo d rt last l
  | [], _ => rfl
  | c :: rest, last => by
      unfold execSeqLoop schedulerSpecGo
      dsimp only
      by_cases hc : strStartsWith c.command "#" = true
      · rw [if_pos hc, if_pos hc]
        dsimp only
        rw [execSeqLoop_trace f d rt rest last]
      · rw [if_neg hc, if_neg hc]
        cases hf : f c.command with
        | ok resp =>
            dsimp only
            rw [execSeqLoop_trace f d rt rest c.tick]
        | error e =>
            dsimp only
            rw [execSeqLoop_trace f d rt rest c.tick]

/-- C7: with `realtime` on, the scheduler's observable trace is exactly
the spec's pacing discipline — before each command whose tick exceeds
the `last_tick` cursor (initially 0) it sleeps
`(tick - last_tick) * tick_delay_ms` milliseconds (the recorded value is
in seconds, as handed to `time.sleep`) — and in particular commands at
ticks [0, 20, 40] with `tick_delay_ms = 50` sleep 1 s (1000 ms) before
the tick-20 command and another 1 s before the tick-40 command,
whatever the transport returns. -/
theorem c7_pacing (commands : List SchedCmd) (tick_delay_ms : Int)
    (f : String → Except String String) :
    (execute_sequence f commands tick_delay_ms true).1
      = schedulerSpecTrace commands tick_delay_ms true
    ∧ (execute_sequence f
        [{ tick := 0, command := "say a" }, { tick := 20, command := "say b" },
         { tick := 40, command := "say c" }] 50 true).1
      = [SchedEvent.submit "say a", SchedEvent.sleep 1, SchedEvent.submit "say b",
         SchedEvent.sleep 1, SchedEvent.submit "say c"] := by
  constructor
  · unfold execute_sequence schedulerSpecTrace
    exact execSeqLoop_trace f tick_delay_ms true _ 0
  · have h := execSeqLoop_trace f 50 true
      (pySorted (fun a b => a.tick ≤ b.tick)
        [{ tick := 0, command := "say a" }, { tick := 20, command := "say b" },
         { tick := 40, command := "say c" }]) 0
    unfold execute_sequence
    rw [h]
    with_unfolding_all decide

theorem stableInsert_length {α : Type _} (le : α → α → Bool) (x : α) :
    ∀ l : List α, (stableInsert le x l).length = l.length + 1
  | [] => rfl
  | y :: ys => by
      unfold stableInsert
      by_cases h : le y x = true <;> simp [h, stableInsert_length le x ys]

theorem pySorted_length {α : Type _} (le : α → α → Bool) (l : List α) :
    (pySorted le l).length = l.length := by
  unfold pySorted
  suffices h : ∀ (l acc : List α),
      (l.foldl (fun acc x => stableInsert le x acc) acc).length = acc.length + l.length by
    simpa using h l []
  intro l
  induction l with
  | nil => intro acc; simp
  | cons x xs ih =>
      intro acc
      rw [List.foldl_cons, ih, stableInsert_length]
      simp only [List.length_cons]
      omega

/-- Step equations for the scheduler loop. -/
theorem execSeqLoop_cons_comment (f : String → Except String String) (d : Int) (rt : Bool)
    (last : Int) (c : SchedCmd) (rest : List SchedCmd)
    (hc : strStartsWith c.command "#" = true) :
    execSeqLoop f d rt last (c :: rest)
      = ((if rt && last < c.tick then [SchedEvent.sleep (((c.tick - last) * d : ℚ) / 1000)] else [])
          ++ (execSeqLoop f d rt last rest).1,
         { success := true, response := "Skipped", tick := c.tick, command := c.command }
           :: (execSeqLoop f d rt last rest).2) := by
  conv_lhs => unfold execSeqLoop
  dsimp only
  rw [if_pos hc]

theorem execSeqLoop_cons_ok (f : String → Except String String) (d : Int) (rt : Bool)
    (last : Int) (c : SchedCmd) (rest : List SchedCmd) (resp : String)
    (hc : strStartsWith c.command "#" = false) (hf : f c.command = .ok resp) :
    execSeqLoop f d rt last (c :: rest)
      = ((if rt && last < c.tick then [SchedEvent.sleep (((c.tick - last) * d : ℚ) / 1000)] else [])
          ++ SchedEvent.submit c.command :: (execSeqLoop f d rt c.tick rest).1,
         { success := true, response := resp, tick := c.tick, command := c.command }
           :: (execSeqLoop f d rt c.tick rest).2) := by
  conv_lhs => unfold execSeqLoop
  dsimp only
  rw [if_neg (by simp [hc]), hf]

theorem execSeqLoop_cons_error (f : String → Except String String) (d : Int) (rt : Bool)
    (last : Int) (c : SchedCmd) (rest : List SchedCmd) (e : String)
    (hc : strStartsWith c.command "#" = false) (hf : f c.command = .error e) :
    execSeqLoop f d rt last (c :: rest)
      = ((if rt && last < c.tick then [SchedEvent.sleep (((c.tick - last) * d : ℚ) / 1000)] else [])
          ++ SchedEvent.submit c.command :: (execSeqLoop f d rt c.tick rest).1,
         { success := false, response := e, tick := c.tick, command := c.command }
           :: (execSeqLoop f d rt c.tick rest).2) := by
  conv_lhs => unfold execSeqLoop
  dsimp only
  rw [if_neg (by simp [hc]), hf]

theorem filterMap_submitted_sleepPre (pre : List SchedEvent)
    (hpre : ∀ ev ∈ pre, submittedCommand ev = Option.none) (l : List SchedEvent) :
    (pre ++ l).filterMap submittedCommand = l.filterMap submittedCommand := by
  rw [List.filterMap_append]
  have : pre.filterMap submittedCommand = [] := by
    rw [List.filterMap_eq_nil]
    exact hpre
  rw [this, List.nil_append]

theorem execSeqLoop_results (f : String → Except String String) (d : Int) (rt : Bool) :
    ∀ (l : List SchedCmd) (last : Int),
      ((execSeqLoop f d rt last l).2.length = l.length)
      ∧ ((execSeqLoop f d rt last l).1.filterMap submittedCommand
          = (l.filter (fun c => !(strStartsWith c.command "#"))).map SchedCmd.command)
      ∧ ∀ i c0, l.get? i = some c0 →
          ∃ r0, (execSeqLoop f d rt last l).2.get? i = some r0
            ∧ r0.command = c0.command ∧ r0.tick = c0.tick
            ∧ (strStartsWith c0.command "#" = true →
                r0 = { success := true, response := "Skipped", tick := c0.tick,
                       command := c0.command })
            ∧ (strStartsWith c0.command "#" = false →
                r0.success = (f c0.command).toBool
                ∧ r0.response = (match f c0.command with
                                 | .ok resp => resp
                                 | .error e => e))
  | [], _ => ⟨rfl, rfl, fun i c0 h0 => absurd h0 (by simp)⟩
  | c :: rest, last => by
      have hpre : ∀ ev ∈ (if rt && last < c.tick then
          [SchedEvent.sleep (((c.tick - last) * d : ℚ) / 1000)] else []),
          submittedCommand ev = Option.none := by
        by_cases hrt : (rt && decide (last < c.tick)) = true <;>
          simp [hrt, submittedCommand]
      by_cases hc : strStartsWith c.command "#" = true
      · rw [execSeqLoop_cons_comment f d rt last c rest hc]
        obtain ⟨ihlen, ihsub, ihidx⟩ := execSeqLoop_results f d rt rest last
        refine ⟨by simpa using ihlen, ?_, ?_⟩
        · dsimp only
          rw [filterMap_submitted_sleepPre _ hpre, List.filter_cons_of_neg (by simp [hc])]
          exact ihsub
        · intro i c0 h0
          cases i with
          | zero =>
              rw [List.get?_cons_zero] at h0
              injection h0 with h0
              subst h0
              exact ⟨_, rfl, rfl, rfl, fun _ => rfl,
                fun hcontra => absurd hc (by simp [hcontra])⟩
          | succ i =>
              rw [List.get?_cons_succ] at h0
              obtain ⟨r0, hr0, hrest⟩ := ihidx i c0 h0
              exact ⟨r0, by simpa using hr0, hrest⟩
      · have hcF : strStartsWith c.command "#" = false := by
          cases hx : strStartsWith c.command "#"
          · rfl
          · exact absurd hx hc
        cases hf : f c.command with
        | ok resp =>
            rw [execSeqLoop_cons_ok f d rt last c rest resp hcF hf]
            obtain ⟨ihlen, ihsub, ihidx⟩ := execSeqLoop_results f d rt rest c.tick
            refine ⟨by simpa using ihlen, ?_, ?_⟩
            · dsimp only
              rw [filterMap_submitted_sleepPre _ hpre,
                List.filter_cons_of_pos (by simp [hcF])]
              simp only [List.filterMap_cons, submittedCommand, List.map_cons]
              rw [ihsub]
            · intro i c0 h0
              cases i with
              | zero =>
                  rw [List.get?_cons_zero] at h0
                  injection h0 with h0
                  subst h0
                  refine ⟨_, rfl, rfl, rfl,
                    fun hcontra => absurd hcontra (by simp [hcF]), fun _ => ⟨?_, ?_⟩⟩
                  · show true = (f c.command).toBool
                    rw [hf]
                    rfl
                  · show resp = _
                    rw [hf]
              | succ i =>
                  rw [List.get?_cons_succ] at h0
                  obtain ⟨r0, hr0, hrest⟩ := ihidx i c0 h0
                  exact ⟨r0, by simpa using hr0, hrest⟩
        | error e =>
            rw [execSeqLoop_cons_error f d rt last c rest e hcF hf]
            obtain ⟨ihlen, ihsub, ihidx⟩ := execSeqLoop_results f d rt rest c.tick
            refine ⟨by simpa using ihlen, ?_, ?_⟩
            · dsimp only
              rw [filterMap_submitted_sleepPre _ hpre,
                List.filter_cons_of_pos (by simp [hcF])]
              simp only [List.filterMap_cons, submittedCommand, List.map_cons]
              rw [ihsub]
            · intro i c0 h0
              cases i with
              | zero =>
                  rw [List.get?_cons_zero] at h0
                  injection h0 with h0
                  subst h0
                  refine ⟨_, rfl, rfl, rfl,
                    fun hcontra => absurd hcontra (by simp [hcF]), fun _ => ⟨?_, ?_⟩⟩
                  · show false = (f c.command).toBool
                    rw [hf]
                    rfl
                  · show e = _
                    rw [hf]
              | succ i =>
                  rw [List.get?_cons_succ] at h0
                  obtain ⟨r0, hr0, hrest⟩ := ihidx i c0 h0
                  exact ⟨r0, by simpa using hr0, hrest⟩

/-- C8: the scheduler records every comment-tagged command as a
trivially skipped successful result and never submits it to the
transport; each real command is submitted exactly once — the submission
trace is exactly the sorted non-comment commands, in order; a
per-command transport failure is recorded as a failed result and the
remaining commands still run: the result list covers the entire input
for every transport, including failing ones. -/
theorem c8_isolation (commands : List SchedCmd) (tick_delay_ms : Int) (realtime : Bool)
    (f : String → Except String String) :
    (execute_sequence f commands tick_delay_ms realtime).2.length = commands.length
    ∧ ((execute_sequence f commands tick_delay_ms realtime).1.filterMap submittedCommand
        = ((pySorted (fun a b => a.tick ≤ b.tick) commands).filter
            (fun c => !(strStartsWith c.command "#"))).map SchedCmd.command)
    ∧ ∀ i c0, (pySorted (fun a b => a.tick ≤ b.tick) commands).get? i = some c0 →
        ∃ r0, (execute_sequence f commands tick_delay_ms realtime).2.get? i = some r0
          ∧ r0.command = c0.command ∧ r0.tick = c0.tick
          ∧ (strStartsWith c0.command "#" = true →
              r0 = { success := true, response := "Skipped", tick := c0.tick,
                     command := c0.command })
          ∧ (strStartsWith c0.command "#" = false →
              r0.success = (f c0.command).toBool
              ∧ r0.response = (match f c0.command with
                               | .ok resp => resp
                               | .error e => e)) := by
  obtain ⟨h1, h2, h3⟩ := execSeqLoop_results f tick_delay_ms realtime
    (pySorted (fun a b => a.tick ≤ b.tick) commands) 0
  unfold execute_sequence
  exact ⟨h1.trans (pySorted_length _ _), h2, h3⟩

/-- Witness for C8: a comment at tick 5 amid ticks 0/20/40 and a
transport failing on "say b": four results, three submissions, the
comment skipped without submission, and execution continuing past the
failure. -/
theorem c8_isolation_witness :
    (execute_sequence schedWitnessTransport schedWitnessCmds 50 true).2.length = 4
    ∧ (execute_sequence schedWitnessTransport schedWitnessCmds 50 true).1.filterMap
        submittedCommand = ["say a", "say b", "say c"] := by
  refine ⟨?_, ?_⟩
  · rw [(c8_isolation schedWitnessCmds 50 true schedWitnessTransport).1]
    rfl
  · rw [(c8_isolation schedWitnessCmds 50 true schedWitnessTransport).2.1]
    with_unfolding_all decide

end CineCraft
